import Mathlib

/-!
Shallow embedding of the open-factura-ec electronic-invoicing library
(src/utils/utils.ts, src/services/generateInvoice.ts, src/services/signing.ts
and the data model under src/baseData/invoice/), together with theorems
checking the natural-language specification against it.

Modelling conventions:
* JavaScript strings are Lean `String`s; `split`, `padStart` and template
  interpolation are modelled by structurally recursive functions below.
* JavaScript numbers are modelled by exact fractions (`JSNum`).  The invoice
  amounts the library manipulates are decimal literals, and the only numeric
  operations performed on them are addition, subtraction, absolute value,
  comparison and `toFixed`; binary floating-point rounding artifacts are not
  modelled (no claim depends on a rounding tie).
* `parseInt` applied to a single non-digit character (or to the `undefined`
  obtained by indexing a string out of range) yields JavaScript `NaN`; `NaN`
  is modelled by `Option.none`, and its propagation through arithmetic,
  `%`, comparison and string interpolation is modelled at each use site.
* Thrown JavaScript `Error`s are modelled by `Except.error` carrying the
  message string.
* The XML documents produced by xmlbuilder2 / consumed by xmldom are
  modelled as ordered trees (`XmlNode`); serialization to bytes is a pure
  function of this tree, so determinism and structure claims are stated on
  the tree.
-/

/-- Decimal rendering of a natural number, with an explicit fuel argument to
keep the recursion structural (kernel-reducible).  Models JavaScript
number-to-string conversion for nonnegative integers. -/
def natToStringAux : Nat → Nat → List Char
  | 0, _ => []
  | fuel+1, n =>
    if n < 10 then [Char.ofNat (48 + n)]
    else natToStringAux fuel (n / 10) ++ [Char.ofNat (48 + n % 10)]

/-- Decimal rendering of a natural number. -/
def natToString (n : Nat) : String := String.mk (natToStringAux (n+1) n)

/-- Decimal rendering of an integer. -/
def intToString (i : Int) : String :=
  if i < 0 then "-" ++ natToString i.natAbs else natToString i.natAbs

/-- The property that every character of a string is an ASCII decimal digit. -/
def allDigits (s : String) : Prop := ∀ c ∈ s.data, c.isDigit

instance (s : String) : Decidable (allDigits s) := by
  unfold allDigits; infer_instance

/-- Model of JavaScript `String.prototype.padStart(n, c)`: a string shorter
than `n` is left-padded with copies of `c` up to length `n`, otherwise it is
returned unchanged. -/
def jsPadStart (s : String) (n : Nat) (c : Char) : String :=
  if n ≤ s.length then s else String.mk (List.replicate (n - s.length) c) ++ s

/-- Split a character list on a separator character; always returns at least
one (possibly empty) group, like JavaScript `split` with a one-character
separator. -/
def splitCharsOn (sep : Char) : List Char → List (List Char)
  | [] => [[]]
  | c :: cs =>
    match splitCharsOn sep cs with
    | [] => [[]]
    | g :: gs => if c = sep then [] :: g :: gs else (c :: g) :: gs

/-- Model of JavaScript `s.split(sep)` for a one-character separator. -/
def jsSplit (sep : Char) (s : String) : List String :=
  (splitCharsOn sep s.data).map String.mk

/-- Exact fraction modelling a JavaScript number.  The denominator is kept
positive; fractions are not normalised (no claim depends on normalisation,
and keeping the operations free of `gcd` keeps them kernel-reducible). -/
structure JSNum where
  num : Int
  den : Nat
  denPos : 0 < den

/-- The integer `n` as a `JSNum`. -/
def JSNum.int (n : Int) : JSNum := ⟨n, 1, Nat.one_pos⟩

/-- The decimal literal `n × 10^(-d)` as a `JSNum`; e.g. `JSNum.dec 10002 2`
is `100.02`. -/
def JSNum.dec (n : Int) (d : Nat) : JSNum :=
  ⟨n, 10 ^ d, Nat.pos_pow_of_pos d (by decide)⟩

/-- Addition of JavaScript numbers. -/
def JSNum.add (x y : JSNum) : JSNum :=
  ⟨x.num * y.den + y.num * x.den, x.den * y.den, Nat.mul_pos x.denPos y.denPos⟩

/-- Subtraction of JavaScript numbers. -/
def JSNum.sub (x y : JSNum) : JSNum :=
  ⟨x.num * y.den - y.num * x.den, x.den * y.den, Nat.mul_pos x.denPos y.denPos⟩

/-- Model of `Math.abs`. -/
def jsAbs (x : JSNum) : JSNum := if x.num < 0 then ⟨-x.num, x.den, x.denPos⟩ else x

/-- Strict greater-than comparison of JavaScript numbers (cross
multiplication; both denominators are positive). -/
def JSNum.gt (x y : JSNum) : Bool :=
  if y.num * (x.den : Int) < x.num * (y.den : Int) then true else false

/-- The `d` low decimal digits of `n`, most significant first; exactly `d`
characters. -/
def fracPad (n d : Nat) : String :=
  String.mk ((List.range d).reverse.map (fun i => Char.ofNat (48 + n / 10 ^ i % 10)))

/-- Rounded fixed-point rendering of the nonnegative fraction `a / b` with
`d` decimal places (round to nearest, used by the `toFixed` model). -/
def jsToFixedNat (a b d : Nat) : String :=
  let scaled := (2 * a * 10 ^ d + b) / (2 * b)
  if d = 0 then natToString scaled
  else natToString (scaled / 10 ^ d) ++ "." ++ fracPad (scaled % 10 ^ d) d

/-- Model of JavaScript `x.toFixed(d)`. -/
def jsToFixed (x : JSNum) (d : Nat) : String :=
  if x.num < 0 then "-" ++ jsToFixedNat x.num.natAbs x.den d
  else jsToFixedNat x.num.natAbs x.den d

/-- Model of JavaScript `x.toString()` on a number.  The fields serialized
through `toString` by the builder (`tarifa`, `plazo`) are integral in every
invoice the tax authority accepts; the non-integral fallback rendering is a
placeholder no claim depends on. -/
def jsNumToString (x : JSNum) : String :=
  if x.num % (x.den : Int) = 0 then intToString (x.num / (x.den : Int))
  else intToString x.num ++ "/" ++ natToString x.den

/-- Base64 alphabet. -/
def b64Alphabet : List Char :=
  "ABCDEFGHIJKLMNOPQRSTUVWXYZabcdefghijklmnopqrstuvwxyz0123456789+/".data

/-- Character of the base64 alphabet at index `n < 64`. -/
def b64Char (n : Nat) : Char := b64Alphabet.getD n 'A'

/-- Standard base64 encoding of a byte sequence (with `=` padding); models
`Buffer.from(bytes).toString(base64)`. -/
def base64Encode : List Nat → String
  | [] => ""
  | [a] => String.mk [b64Char (a / 4), b64Char (a % 4 * 16), '=', '=']
  | [a, b] =>
    String.mk [b64Char (a / 4), b64Char (a % 4 * 16 + b / 16), b64Char (b % 16 * 4), '=']
  | a :: b :: c :: rest =>
    String.mk [b64Char (a / 4), b64Char (a % 4 * 16 + b / 16),
               b64Char (b % 16 * 4 + c / 64), b64Char (c % 64)] ++ base64Encode rest

/-! ## src/utils/utils.ts -/

/-- The components of the access key (interface `AccessKeyParts`). -/
structure AccessKeyParts where
  date : String
  voucherType : String
  ruc : String
  environment : String
  series : String
  sequence : String
  numericCode : String
  emissionType : String

/-- The 48 positional weights hard-coded in `getCheckDigit`
(src/utils/utils.ts line 28). -/
def weights : List Nat :=
  [7, 6, 5, 4, 3, 2, 7, 6, 5, 4, 3, 2, 7, 6, 5, 4, 3, 2, 7, 6, 5, 4, 3, 2,
   7, 6, 5, 4, 3, 2, 7, 6, 5, 4, 3, 2, 7, 6, 5, 4, 3, 2, 7, 6, 5, 4, 3, 2]

/-- Model of `parseInt(key[i], 10)` on the one-character string `key[i]`:
a digit character parses to its value, anything else gives `NaN` (`none`). -/
def digitVal (c : Char) : Option Nat :=
  if c.isDigit then some (c.toNat - 48) else none

/-- The loop of `getCheckDigit`: `sum += parseInt(key[i], 10) * weights[i]`
for each weight index.  Indexing past the end of the key gives `undefined`,
hence `NaN` (`none`); one `NaN` contaminates the whole sum. -/
def sumWeighted : List Char → List Nat → Option Nat
  | _, [] => some 0
  | [], _ :: _ => none
  | c :: cs, w :: ws =>
    match digitVal c, sumWeighted cs ws with
    | some d, some s => some (d * w + s)
    | _, _ => none

/-- Model of `getCheckDigit` (src/utils/utils.ts lines 27-41).  The source
performs no input validation; a `NaN` sum (non-digit character among the
first 48, or fewer than 48 characters) propagates through `%` and `-` and is
returned as `NaN`, modelled by `none`. -/
def getCheckDigit (key : String) : Option Nat :=
  match sumWeighted key.data weights with
  | none => none
  | some sum =>
    let remainder := sum % 11
    let checkDigit := 11 - remainder
    if checkDigit = 11 then some 0
    else if checkDigit = 10 then some 1
    else some checkDigit

/-- Model of template interpolation of a possibly-`NaN` number
(JavaScript renders `NaN` as the three characters `NaN`). -/
def jsNumOptToString : Option Nat → String
  | some n => natToString n
  | none => "NaN"

/-- Error message thrown by `getAccessKey` for a date that does not split
into three components. -/
def dateFormatErrMsg : String := "El formato de la fecha debe ser dd/mm/yyyy"

/-- Error message thrown by `getAccessKey` when the concatenation is not 48
characters long (the length is interpolated into the message). -/
def keyLengthErrMsg (n : Nat) : String :=
  "Error de longitud al generar la clave de acceso. Se esperaban 48 dígitos y se obtuvieron "
    ++ natToString n ++ "."

/-- The reformatted emission date of `getAccessKey`: the date is split on
the slash character and the check `dateParts.length !== 3` is modelled by
matching a three-element list. -/
def formattedDateOf (p : AccessKeyParts) : Option String :=
  match jsSplit '/' p.date with
  | [d1, d2, d3] => some (d1 ++ d2 ++ d3)
  | _ => none

/-- The padded concatenation of `getAccessKey` (`keyWithoutCheckDigit` in
the source), given the already reformatted date. -/
def keyWithoutCheckDigitOf (p : AccessKeyParts) (fd : String) : String :=
  fd ++ jsPadStart p.voucherType 2 '0' ++ p.ruc ++ jsPadStart p.environment 1 '0'
     ++ jsPadStart p.series 6 '0' ++ jsPadStart p.sequence 9 '0'
     ++ jsPadStart p.numericCode 8 '0' ++ jsPadStart p.emissionType 1 '0'

/-- Model of `getAccessKey` (src/utils/utils.ts lines 48-73). -/
def getAccessKey (p : AccessKeyParts) : Except String String :=
  match formattedDateOf p with
  | none => .error dateFormatErrMsg
  | some fd =>
    let k := keyWithoutCheckDigitOf p fd
    if k.length ≠ 48 then .error (keyLengthErrMsg k.length)
    else .ok (k ++ jsNumOptToString (getCheckDigit k))

/-! ## Reference mod-11 checksum, stated from the specification text -/

/-- The repeating weight cycle of the specification. -/
def weightCycle : List Nat := [7, 6, 5, 4, 3, 2]

/-- The specification weight of position `i`: the cycle applied positionally,
repeating every 6 positions. -/
def cycleWeight (i : Nat) : Nat := weightCycle.getD (i % 6) 0

/-- The reference mod-11 algorithm as worded in the specification:
`sum = Σ digit[i] * weight[i]`, `remainder = sum mod 11`,
`raw = 11 - remainder`, mapping `raw = 11` to 0 and `raw = 10` to 1. -/
def specMod11 (digits : List Nat) : Nat :=
  let s := (List.zipWith (fun d w => d * w) digits
            ((List.range digits.length).map cycleWeight)).sum
  let raw := 11 - s % 11
  if raw = 11 then 0 else if raw = 10 then 1 else raw

/-! ## XML documents -/

/-- Ordered XML tree: an element with named attributes and ordered children,
or a text node. -/
inductive XmlNode where
  | elem (name : String) (attrs : List (String × String)) (children : List XmlNode)
  | text (s : String)

/-- An element `<tag>v</tag>`; models `node.ele(tag).txt(v)`. -/
def txtEle (tag v : String) : XmlNode := .elem tag [] [.text v]

/-- Children contributed by an `if (field) { node.ele(tag).txt(field) }`
guard on an optional string field: JavaScript truthiness makes both a
missing field and an empty string produce no node. -/
def optTxtEle (tag : String) : Option String → List XmlNode
  | some s => if s = "" then [] else [txtEle tag s]
  | none => []

/-- The tag name of an element node. -/
def elemName : XmlNode → Option String
  | .elem n _ _ => some n
  | .text _ => none

/-- The attribute list of an element node. -/
def elemAttrs : XmlNode → List (String × String)
  | .elem _ a _ => a
  | .text _ => []

/-- The child list of an element node. -/
def elemChildren : XmlNode → List XmlNode
  | .elem _ _ cs => cs
  | .text _ => []

/-- The tag names of the element children of a node, in document order. -/
def childNames (x : XmlNode) : List String := (elemChildren x).filterMap elemName

/-- Extract the text of a node when it is an element named `tag` wrapping a
single text node. -/
def txtMatch (tag : String) : XmlNode → Option String
  | .elem t _ [.text s] => if t = tag then some s else none
  | _ => none

/-- The text content of the first child element named `tag` that wraps a
single text node. -/
def firstChildText (tag : String) (x : XmlNode) : Option String :=
  (elemChildren x).findSome? (txtMatch tag)

/-- The `i`-th child of a node. -/
def nthChild (x : XmlNode) (i : Nat) : Option XmlNode := (elemChildren x).get? i

/-- The first child element named `tag`. -/
def childElemNamed (tag : String) (x : XmlNode) : Option XmlNode :=
  (elemChildren x).find? fun c => decide (elemName c = some tag)

/-! ## Data model (src/baseData/invoice/) -/

/-- The four supported schema versions (type `InvoiceVersion`). -/
inductive InvoiceVersion where
  | v1_0_0
  | v1_1_0
  | v2_0_0
  | v2_1_0
deriving DecidableEq

/-- The version string carried by each `InvoiceVersion` literal. -/
def versionString : InvoiceVersion → String
  | .v1_0_0 => "1.0.0"
  | .v1_1_0 => "1.1.0"
  | .v2_0_0 => "2.0.0"
  | .v2_1_0 => "2.1.0"

/-- Interface `TotalTax` (taxInfo.ts). -/
structure TotalTax where
  codigo : String
  codigoPorcentaje : String
  baseImponible : JSNum
  valor : JSNum

/-- Interface `Pago` (invoiceInfo.ts). -/
structure Pago where
  formaPago : String
  total : JSNum
  plazo : Option JSNum
  unidadTiempo : Option String

/-- Interface `InvoiceInfo` (invoiceInfo.ts). -/
structure InvoiceInfo where
  fechaEmision : String
  dirEstablecimiento : String
  contribuyenteEspecial : Option String
  obligadoContabilidad : String
  tipoIdentificacionComprador : String
  razonSocialComprador : String
  identificacionComprador : String
  direccionComprador : Option String
  totalSinImpuestos : JSNum
  totalDescuento : JSNum
  totalSubsidio : Option JSNum
  codDocReembolso : Option String
  totalComprobantesReembolso : Option JSNum
  totalBaseImponibleReembolso : Option JSNum
  totalImpuestoReembolso : Option JSNum
  totalConImpuestos : List TotalTax
  propina : JSNum
  importeTotal : JSNum
  moneda : String
  placa : Option String
  pagos : List Pago

/-- Interface `TaxInfo` (taxInfo.ts).  The `claveAcceso` field is present on
the caller-supplied data but the builder never reads it. -/
structure TaxInfo where
  ambiente : String
  tipoEmision : String
  razonSocial : String
  nombreComercial : Option String
  ruc : String
  claveAcceso : String
  codDoc : String
  estab : String
  ptoEmi : String
  secuencial : String
  dirMatriz : String
  agenteRetencion : Option String
  contribuyenteRimpe : Option String

/-- Interface `CampoAdicional` (additionalInfo.ts). -/
structure CampoAdicional where
  nombre : String
  valor : String

/-- Interface `AdditionalInfo` (additionalInfo.ts). -/
structure AdditionalInfo where
  campos : List CampoAdicional

/-- Interface `AdditionalDetail` (details.ts). -/
structure AdditionalDetail where
  nombre : String
  valor : String

/-- Interface `Tax` (details.ts). -/
structure Tax where
  codigo : String
  codigoPorcentaje : String
  tarifa : JSNum
  baseImponible : JSNum
  valor : JSNum

/-- Interface `Detail` (details.ts). -/
structure Detail where
  codigoPrincipal : String
  codigoAuxiliar : Option String
  descripcion : String
  cantidad : JSNum
  precioUnitario : JSNum
  precioSinSubsidio : Option JSNum
  descuento : JSNum
  precioTotalSinImpuesto : JSNum
  detallesAdicionales : Option (List AdditionalDetail)
  impuestos : List Tax

/-- Interface `RetentionInInvoice` (retentions.ts). -/
structure RetentionInInvoice where
  codigo : String
  codigoPorcentaje : String
  tarifa : JSNum
  valor : JSNum

/-- Interface `DetalleImpuestoReembolso` (reimbursements.ts). -/
structure DetalleImpuestoReembolso where
  codigo : String
  codigoPorcentaje : String
  tarifa : JSNum
  baseImponibleReembolso : JSNum
  impuestoReembolso : JSNum

/-- Interface `ReimbursementDetail` (reimbursements.ts); the single-field
`detalleImpuestos` wrapper object is flattened to its list. -/
structure ReimbursementDetail where
  tipoIdentificacionProveedorReembolso : String
  identificacionProveedorReembolso : String
  codPaisPagoProveedorReembolso : String
  tipoProveedorReembolso : String
  codDocReembolso : String
  estabDocReembolso : String
  ptoEmiDocReembolso : String
  secuencialDocReembolso : String
  fechaEmisionDocReembolso : String
  numeroautorizacionDocReemb : String
  detalleImpuestos : List DetalleImpuestoReembolso

/-- Interface `Destino` (remissionGuidesSustitutiveInfo.ts). -/
structure Destino where
  motivoTraslado : String
  docAduaneroUnico : Option String
  codEstabDestino : String
  ruta : String

/-- Interface `RemissionGuideSustitutiveInfo`
(remissionGuidesSustitutiveInfo.ts); the `destinos` wrapper is flattened. -/
structure RemissionGuideSustitutiveInfo where
  dirPartida : String
  dirDestinatario : String
  fechaIniTransporte : String
  fechaFinTransporte : String
  razonSocialTransportista : String
  tipoIdentificacionTransportista : String
  rucTransportista : String
  placa : String
  destinos : List Destino

/-- Interface `Rubro` (otherThirdPartyValues.ts). -/
structure Rubro where
  concepto : String
  total : JSNum

/-- Interface `OtherThirdPartyValues` (otherThirdPartyValues.ts). -/
structure OtherThirdPartyValues where
  rubro : List Rubro

/-- Interface `Invoice` (invoice.ts); the `retenciones` and `reembolsos`
wrapper objects are flattened to their lists. -/
structure Invoice where
  version : InvoiceVersion
  infoTributaria : TaxInfo
  infoFactura : InvoiceInfo
  detalles : List Detail
  retenciones : Option (List RetentionInInvoice)
  reembolsos : Option (List ReimbursementDetail)
  infoSustitutivaGuiaRemision : Option RemissionGuideSustitutiveInfo
  otrosRubrosTerceros : Option OtherThirdPartyValues
  infoAdicional : Option AdditionalInfo

/-! ## src/services/generateInvoice.ts -/

/-- Truthiness of an optional string field (JavaScript: absent and empty
strings are falsy). -/
def jsTruthyStr : Option String → Bool
  | none => false
  | some s => if s = "" then false else true

/-- The test `/^[0-9]{8}$/.test(codigoNumerico)` together with the preceding
falsiness and `typeof` guards (an empty or non-digit string fails the regex
as well). -/
def isEightDigitCode (s : String) : Bool :=
  if s.length = 8 ∧ allDigits s then true else false

/-- Validation error message for a malformed numeric code. -/
def msgNumericCode : String :=
  "El código numérico debe ser un string de 8 dígitos numéricos. Ejemplo: 12345678"

/-- Validation error message for missing mandatory blocks. -/
def msgBloques : String :=
  "Faltan bloques obligatorios: infoTributaria, infoFactura o detalles."

/-- Validation error message for a payments-total mismatch. -/
def msgPagos : String :=
  "La suma de los pagos no coincide con el importe total de la factura."

/-- Validation error message for a line-items-total mismatch. -/
def msgDetallesSum : String :=
  "La suma de los precios totales sin impuesto de los detalles no coincide con el totalSinImpuestos."

/-- Validation error message for a vehicle plate outside a fuel invoice. -/
def msgPlaca : String :=
  "El campo placa solo debe usarse en facturas de combustibles (codDoc = 01)."

/-- Validation error message for reimbursements without `codDocReembolso`. -/
def msgReembolso : String :=
  "Si hay reembolsos, debe estar presente codDocReembolso en infoFactura."

/-- Validation error message for a substitute-remission-guide block on an
unsupported version. -/
def msgSustitutiva : String :=
  "El bloque infoSustitutivaGuiaRemision solo es válido para versiones >= 2.0.0."

/-- Validation error message for a third-party-values block on an
unsupported version. -/
def msgRubros : String :=
  "El bloque otrosRubrosTerceros solo es válido para versiones >= 2.0.0."

/-- The sum `invoice.infoFactura.pagos.reduce((acc, pago) => acc + pago.total, 0)`. -/
def sumaPagos (invoice : Invoice) : JSNum :=
  invoice.infoFactura.pagos.foldl (fun acc p => acc.add p.total) (JSNum.int 0)

/-- The sum `invoice.detalles.reduce((acc, det) => acc + det.precioTotalSinImpuesto, 0)`. -/
def sumaDetalles (invoice : Invoice) : JSNum :=
  invoice.detalles.foldl (fun acc d => acc.add d.precioTotalSinImpuesto) (JSNum.int 0)

/-- The fixed tolerance `0.01` of the validator. -/
def centTol : JSNum := JSNum.dec 1 2

/-- The validation prefix of `generateInvoiceXML` (lines 36-65), in source
order; the first failing check produces the thrown error.  The presence
checks on `infoTributaria` and `infoFactura` cannot fire here because those
blocks are mandatory in the `Invoice` type (as they are in the TypeScript
interface); the reachable part of the presence rule is the non-empty
`detalles` check. -/
def validateInvoice (invoice : Invoice) (codigoNumerico : String) : Except String Unit :=
  if ¬ isEightDigitCode codigoNumerico then .error msgNumericCode
  else if invoice.detalles.length = 0 then .error msgBloques
  else if ((jsAbs ((sumaPagos invoice).sub invoice.infoFactura.importeTotal)).gt centTol) then
    .error msgPagos
  else if ((jsAbs ((sumaDetalles invoice).sub invoice.infoFactura.totalSinImpuestos)).gt centTol) then
    .error msgDetallesSum
  else if jsTruthyStr invoice.infoFactura.placa ∧ invoice.infoTributaria.codDoc ≠ "01" then
    .error msgPlaca
  else if invoice.reembolsos.isSome ∧ ¬ jsTruthyStr invoice.infoFactura.codDocReembolso then
    .error msgReembolso
  else if invoice.infoSustitutivaGuiaRemision.isSome
          ∧ versionString invoice.version ∉ ["2.0.0", "2.1.0"] then
    .error msgSustitutiva
  else if invoice.otrosRubrosTerceros.isSome
          ∧ versionString invoice.version ∉ ["2.0.0", "2.1.0"] then
    .error msgRubros
  else .ok ()

/-- The `AccessKeyParts` record `generateInvoiceXML` assembles for
`getAccessKey` (lines 68-77). -/
def accessKeyPartsOf (invoice : Invoice) (codigoNumerico : String) : AccessKeyParts :=
  { date := invoice.infoFactura.fechaEmision
    voucherType := invoice.infoTributaria.codDoc
    ruc := invoice.infoTributaria.ruc
    environment := invoice.infoTributaria.ambiente
    series := invoice.infoTributaria.estab ++ invoice.infoTributaria.ptoEmi
    sequence := invoice.infoTributaria.secuencial
    numericCode := codigoNumerico
    emissionType := invoice.infoTributaria.tipoEmision }

/-- Helper `addAdditionalDetails` (generateInvoice.ts lines 17-24): emits a
`detallesAdicionales` element only when the array exists and is non-empty. -/
def addAdditionalDetails : Option (List AdditionalDetail) → List XmlNode
  | some ds =>
    if 0 < ds.length then
      [.elem "detallesAdicionales" []
        (ds.map fun d => .elem "detAdicional" [("nombre", d.nombre), ("valor", d.valor)] [])]
    else []
  | none => []

/-- The per-item precision switch (line 152): 6 decimals for versions 1.1.0
and 2.1.0, otherwise 2. -/
def precisionOf (v : InvoiceVersion) : Nat :=
  if versionString v ∈ ["1.1.0", "2.1.0"] then 6 else 2

/-- The `<totalImpuesto>` element built for each header tax total. -/
def buildTotalImpuesto (t : TotalTax) : XmlNode :=
  .elem "totalImpuesto" []
    [txtEle "codigo" t.codigo,
     txtEle "codigoPorcentaje" t.codigoPorcentaje,
     txtEle "baseImponible" (jsToFixed t.baseImponible 2),
     txtEle "valor" (jsToFixed t.valor 2)]

/-- The `<pago>` element built for each payment; `plazo` is guarded by
number truthiness (zero is falsy) and `unidadTiempo` by string truthiness. -/
def buildPago (p : Pago) : XmlNode :=
  .elem "pago" []
    ([txtEle "formaPago" p.formaPago, txtEle "total" (jsToFixed p.total 2)]
     ++ (match p.plazo with
         | some q => if q.num = 0 then [] else [txtEle "plazo" (jsNumToString q)]
         | none => [])
     ++ optTxtEle "unidadTiempo" p.unidadTiempo)

/-- The `<impuesto>` element built for each per-item tax entry. -/
def buildImpuesto (t : Tax) : XmlNode :=
  .elem "impuesto" []
    [txtEle "codigo" t.codigo,
     txtEle "codigoPorcentaje" t.codigoPorcentaje,
     txtEle "tarifa" (jsNumToString t.tarifa),
     txtEle "baseImponible" (jsToFixed t.baseImponible 2),
     txtEle "valor" (jsToFixed t.valor 2)]

/-- The `<detalle>` element built for each line item (lines 146-169). -/
def buildDetalle (v : InvoiceVersion) (d : Detail) : XmlNode :=
  .elem "detalle" []
    ([txtEle "codigoPrincipal" d.codigoPrincipal]
     ++ optTxtEle "codigoAuxiliar" d.codigoAuxiliar
     ++ [txtEle "descripcion" d.descripcion,
         txtEle "cantidad" (jsToFixed d.cantidad (precisionOf v)),
         txtEle "precioUnitario" (jsToFixed d.precioUnitario (precisionOf v)),
         txtEle "descuento" (jsToFixed d.descuento 2),
         txtEle "precioTotalSinImpuesto" (jsToFixed d.precioTotalSinImpuesto 2)]
     ++ addAdditionalDetails d.detallesAdicionales
     ++ [.elem "impuestos" [] (d.impuestos.map buildImpuesto)])

/-- The `<infoTributaria>` block (lines 84-103); `claveAcceso` carries the
freshly generated access key, never the caller-supplied field. -/
def buildInfoTributaria (ti : TaxInfo) (accessKey : String) : XmlNode :=
  .elem "infoTributaria" []
    ([txtEle "ambiente" ti.ambiente,
      txtEle "tipoEmision" ti.tipoEmision,
      txtEle "razonSocial" ti.razonSocial]
     ++ optTxtEle "nombreComercial" ti.nombreComercial
     ++ [txtEle "ruc" ti.ruc,
         txtEle "claveAcceso" accessKey,
         txtEle "codDoc" ti.codDoc,
         txtEle "estab" ti.estab,
         txtEle "ptoEmi" ti.ptoEmi,
         txtEle "secuencial" ti.secuencial,
         txtEle "dirMatriz" ti.dirMatriz]
     ++ optTxtEle "agenteRetencion" ti.agenteRetencion
     ++ optTxtEle "contribuyenteRimpe" ti.contribuyenteRimpe)

/-- The `<infoFactura>` block (lines 106-142). -/
def buildInfoFactura (fi : InvoiceInfo) : XmlNode :=
  .elem "infoFactura" []
    ([txtEle "fechaEmision" fi.fechaEmision,
      txtEle "dirEstablecimiento" fi.dirEstablecimiento]
     ++ optTxtEle "contribuyenteEspecial" fi.contribuyenteEspecial
     ++ [txtEle "obligadoContabilidad" fi.obligadoContabilidad,
         txtEle "tipoIdentificacionComprador" fi.tipoIdentificacionComprador,
         txtEle "razonSocialComprador" fi.razonSocialComprador,
         txtEle "identificacionComprador" fi.identificacionComprador]
     ++ optTxtEle "direccionComprador" fi.direccionComprador
     ++ [txtEle "totalSinImpuestos" (jsToFixed fi.totalSinImpuestos 2),
         txtEle "totalDescuento" (jsToFixed fi.totalDescuento 2),
         .elem "totalConImpuestos" [] (fi.totalConImpuestos.map buildTotalImpuesto),
         txtEle "propina" (jsToFixed fi.propina 2),
         txtEle "importeTotal" (jsToFixed fi.importeTotal 2),
         txtEle "moneda" fi.moneda,
         .elem "pagos" [] (fi.pagos.map buildPago)])

/-- The `<infoAdicional>` block (lines 172-177). -/
def buildInfoAdicional (ai : AdditionalInfo) : XmlNode :=
  .elem "infoAdicional" []
    (ai.campos.map fun c => .elem "campoAdicional" [("nombre", c.nombre)] [.text c.valor])

/-- The complete document tree built by `generateInvoiceXML` (lines 80-177):
root `<factura id="comprobante" version="...">` with `infoTributaria`,
`infoFactura`, `detalles` and, only when present with a non-empty `campos`
array, `infoAdicional`.  The `retenciones`, `reembolsos`,
`infoSustitutivaGuiaRemision` and `otrosRubrosTerceros` blocks of the data
model are never serialized by this builder. -/
def buildFactura (invoice : Invoice) (accessKey : String) : XmlNode :=
  .elem "factura" [("id", "comprobante"), ("version", versionString invoice.version)]
    ([buildInfoTributaria invoice.infoTributaria accessKey,
      buildInfoFactura invoice.infoFactura,
      .elem "detalles" [] (invoice.detalles.map (buildDetalle invoice.version))]
     ++ (match invoice.infoAdicional with
         | some ai => if 0 < ai.campos.length then [buildInfoAdicional ai] else []
         | none => []))

/-- Model of `generateInvoiceXML` (generateInvoice.ts lines 34-182):
validation in source order, then internal access-key generation, then the
document build.  The returned pair is the document tree and the access key
(the serialized byte string is a pure function of the tree). -/
def generateInvoiceXML (invoice : Invoice) (codigoNumerico : String) :
    Except String (XmlNode × String) :=
  match validateInvoice invoice codigoNumerico with
  | .error e => .error e
  | .ok _ =>
    match getAccessKey (accessKeyPartsOf invoice codigoNumerico) with
    | .error e => .error e
    | .ok accessKey => .ok (buildFactura invoice accessKey, accessKey)

/-! ## Validation rules, stated from the specification text -/

/-- Rule 1 (reachable part): a non-empty line-item sequence. -/
abbrev rule1Ok (invoice : Invoice) : Prop := invoice.detalles.length ≠ 0

/-- Rule 2: payments sum to the grand total within the 0.01 tolerance. -/
abbrev rule2Ok (invoice : Invoice) : Prop :=
  (jsAbs ((sumaPagos invoice).sub invoice.infoFactura.importeTotal)).gt centTol = false

/-- Rule 3: line-item totals sum to the tax-exclusive total within 0.01. -/
abbrev rule3Ok (invoice : Invoice) : Prop :=
  (jsAbs ((sumaDetalles invoice).sub invoice.infoFactura.totalSinImpuestos)).gt centTol = false

/-- Rule 4: a (truthy) vehicle plate is only allowed on document type 01. -/
abbrev rule4Ok (invoice : Invoice) : Prop :=
  jsTruthyStr invoice.infoFactura.placa = true → invoice.infoTributaria.codDoc = "01"

/-- Rule 5: a reimbursements block requires a truthy `codDocReembolso`. -/
abbrev rule5Ok (invoice : Invoice) : Prop :=
  invoice.reembolsos.isSome = true → jsTruthyStr invoice.infoFactura.codDocReembolso = true

/-- Rule 6: a substitute-remission-guide block requires version 2.0.0 or 2.1.0. -/
abbrev rule6Ok (invoice : Invoice) : Prop :=
  invoice.infoSustitutivaGuiaRemision.isSome = true
    → versionString invoice.version ∈ ["2.0.0", "2.1.0"]

/-- Rule 7: a third-party-values block requires version 2.0.0 or 2.1.0. -/
abbrev rule7Ok (invoice : Invoice) : Prop :=
  invoice.otrosRubrosTerceros.isSome = true
    → versionString invoice.version ∈ ["2.0.0", "2.1.0"]

/-! ## src/services/signing.ts -/

/-- An X.509 certificate as handled by node-forge, abstracted to its DER
encoding (`forge.asn1.toDer(forge.pki.certificateToAsn1(cert))`). -/
structure ForgeCertificate where
  derBytes : List Nat

/-- A private key as handled by node-forge, abstracted to its PKCS#8 DER
re-encoding (`privateKeyToAsn1` / `wrapRsaPrivateKey` / `toDer`), the
bridging step required before the WebCrypto import. -/
structure ForgePrivateKey where
  pkcs8Der : List Nat

/-- A certificate bag of the parsed PKCS#12 container; its `cert` property
may be absent. -/
structure P12CertBag where
  cert : Option ForgeCertificate

/-- A key bag of the parsed PKCS#12 container; its `key` property may be
absent. -/
structure P12KeyBag where
  key : Option ForgePrivateKey

/-- The parsed PKCS#12 container, as observed through the three `getBags`
queries of `signXML`.  Each lookup `bags[oid]` may yield `undefined`
(`none`) or an array. -/
structure P12File where
  certBagArray : Option (List P12CertBag)
  shroudedKeyBagArray : Option (List P12KeyBag)
  keyBagArray : Option (List P12KeyBag)

/-- The argument record `signXML` hands to the xadesjs signing engine:
algorithm, digest, reference transforms and URI, embedded certificate chain
and imported key material. -/
structure SignParams where
  algName : String
  hash : String
  transforms : List String
  uri : String
  x509 : List String
  keyPkcs8 : List Nat

/-- The parameters `signXML` passes to `SignedXml.Sign` (signing.ts lines
166-199): RSASSA-PKCS1-v1_5 with SHA-256, one reference to `#comprobante`
with transforms `enveloped` then `c14n`, and the certificate embedded as
base64 of its DER encoding. -/
def mkSignParams (cert : ForgeCertificate) (key : ForgePrivateKey) : SignParams :=
  { algName := "RSASSA-PKCS1-v1_5"
    hash := "SHA-256"
    transforms := ["enveloped", "c14n"]
    uri := "#comprobante"
    x509 := [base64Encode cert.derBytes]
    keyPkcs8 := key.pkcs8Der }

/-- Error message for a container without a certificate bag. -/
def msgCertNotFound : String := "No se encontró un certificado digital en el archivo P12."

/-- Error message for a container without a PKCS#8 shrouded key bag. -/
def msgKeyNotFoundPkcs8 : String :=
  "No se encontró una clave privada en formato PKCS#8 en el archivo P12. Si su certificado es antiguo, conviértalo a PKCS#8 usando OpenSSL."

/-- Error message when the first certificate bag has no `cert` property. -/
def msgCertExtract : String := "No se pudo extraer el certificado del bag."

/-- Error message when neither the shrouded bag nor the legacy fallback
yields a key object. -/
def msgKeyExtract : String := "No se pudo extraer la clave privada del bag ni del fallback."

/-- Error message when the engine produces no signature node. -/
def msgSignatureNode : String := "No se pudo obtener el nodo de la firma."

/-- Append one node at the end of the root's children
(`doc.documentElement.appendChild(signatureNode)`). -/
def appendChildNode (doc n : XmlNode) : XmlNode :=
  match doc with
  | .elem nm a cs => .elem nm a (cs ++ [n])
  | .text s => .text s

/-- Model of `signXML` (signing.ts lines 111-215), from the point where the
PKCS#12 container has been parsed (file access and the password/MAC check
happen before this logic).  The xadesjs engine (`SignedXml.Sign` followed by
`GetXml`, which may yield no node) is abstracted as the `signEngine`
argument. -/
def signXML (signEngine : SignParams → Option XmlNode) (doc : XmlNode) (p12 : P12File) :
    Except String XmlNode :=
  match p12.certBagArray with
  | none => .error msgCertNotFound
  | some certArr =>
    if certArr.length = 0 then .error msgCertNotFound
    else
      match p12.shroudedKeyBagArray with
      | none => .error msgKeyNotFoundPkcs8
      | some keyArr =>
        if keyArr.length = 0 then .error msgKeyNotFoundPkcs8
        else
          let privateKeyObj :=
            match keyArr.head?.bind P12KeyBag.key with
            | some k => some k
            | none =>
              match p12.keyBagArray with
              | some altArr =>
                if 0 < altArr.length then altArr.head?.bind P12KeyBag.key else none
              | none => none
          match certArr.head?.bind P12CertBag.cert with
          | none => .error msgCertExtract
          | some cert =>
            match privateKeyObj with
            | none => .error msgKeyExtract
            | some key =>
              match signEngine (mkSignParams cert key) with
              | none => .error msgSignatureNode
              | some signatureNode => .ok (appendChildNode doc signatureNode)

/-! ## The number of decimal places of a serialized value -/

/-- A string has exactly `n` decimal places when it ends in a dot followed
by `n` dot-free characters. -/
def hasDecimalPlaces (s : String) (n : Nat) : Prop :=
  ∃ a b, s = a ++ "." ++ String.mk b ∧ b.length = n ∧ ∀ c ∈ b, c ≠ '.'

/-! ## Concrete data used to exercise the theorems -/

/-- The access-key example of the specification: sequential number 1,
tax ID 1790012345001, series 001001, numeric code 12345678, test
environment, document type 01, normal emission, date 15/06/2024. -/
def exAccessKeyParts : AccessKeyParts :=
  { date := "15/06/2024", voucherType := "01", ruc := "1790012345001",
    environment := "1", series := "001001", sequence := "1",
    numericCode := "12345678", emissionType := "1" }

/-- The 48-digit concatenation produced for `exAccessKeyParts`. -/
def exKey48 : String := "150620240117900123450011001001000000001123456781"

/-- The full 49-digit access key produced for `exAccessKeyParts`. -/
def exAccessKey : String := "1506202401179001234500110010010000000011234567812"

/-- Access-key parts whose date splits into three components of total
length 8 and whose padded concatenation has exactly 48 characters, but
whose date components are not decimal digits. -/
def cexAccessKeyParts : AccessKeyParts :=
  { date := "aa/bb/cccc", voucherType := "01", ruc := "1790012345001",
    environment := "1", series := "001001", sequence := "000000001",
    numericCode := "12345678", emissionType := "1" }

/-- The 51-character value `getAccessKey` returns for
`cexAccessKeyParts`: the 48 concatenated characters followed by `NaN`. -/
def cexC1Result : String := "aabbcccc0117900123450011001001000000001123456781NaN"

/-- Emitter header of the example invoices (series 001-001, matching
`exAccessKeyParts`). -/
def exTaxInfo : TaxInfo :=
  { ambiente := "1", tipoEmision := "1", razonSocial := "EMPRESA DEMO S.A.",
    nombreComercial := none, ruc := "1790012345001", claveAcceso := "",
    codDoc := "01", estab := "001", ptoEmi := "001", secuencial := "1",
    dirMatriz := "Av. Principal 123", agenteRetencion := none,
    contribuyenteRimpe := none }

/-- One payment covering the example total. -/
def exPago : Pago :=
  { formaPago := "01", total := JSNum.dec 112 0, plazo := none, unidadTiempo := none }

/-- Invoice header of the example invoices: net 100.00, total 112.00, one
matching payment. -/
def exInfoFactura : InvoiceInfo :=
  { fechaEmision := "15/06/2024", dirEstablecimiento := "Av. Principal 123",
    contribuyenteEspecial := none, obligadoContabilidad := "NO",
    tipoIdentificacionComprador := "07",
    razonSocialComprador := "CONSUMIDOR FINAL",
    identificacionComprador := "9999999999999", direccionComprador := none,
    totalSinImpuestos := JSNum.dec 100 0, totalDescuento := JSNum.dec 0 0,
    totalSubsidio := none, codDocReembolso := none,
    totalComprobantesReembolso := none, totalBaseImponibleReembolso := none,
    totalImpuestoReembolso := none,
    totalConImpuestos := [⟨"2", "2", JSNum.dec 100 0, JSNum.dec 12 0⟩],
    propina := JSNum.dec 0 0, importeTotal := JSNum.dec 112 0,
    moneda := "DOLAR", placa := none, pagos := [exPago] }

/-- One example line item with quantity 1.5. -/
def exDetail : Detail :=
  { codigoPrincipal := "P001", codigoAuxiliar := none,
    descripcion := "Producto demo", cantidad := JSNum.dec 15 1,
    precioUnitario := JSNum.dec 10 0, precioSinSubsidio := none,
    descuento := JSNum.dec 0 0, precioTotalSinImpuesto := JSNum.dec 100 0,
    detallesAdicionales := none,
    impuestos := [⟨"2", "2", JSNum.dec 12 0, JSNum.dec 100 0, JSNum.dec 12 0⟩] }

/-- A fully valid example invoice under schema version 2.1.0. -/
def exInvoice : Invoice :=
  { version := .v2_1_0, infoTributaria := exTaxInfo, infoFactura := exInfoFactura,
    detalles := [exDetail], retenciones := none, reembolsos := none,
    infoSustitutivaGuiaRemision := none, otrosRubrosTerceros := none,
    infoAdicional := none }

/-- The example invoice with payments summing to 100.00 against a declared
grand total of 100.02 (tolerance exceeded). -/
def exInvoiceBadPagos : Invoice :=
  { exInvoice with
    infoFactura := { exInfoFactura with
      importeTotal := JSNum.dec 10002 2,
      pagos := [{ exPago with total := JSNum.dec 100 0 }] } }

/-- One example reimbursement record. -/
def exReimb : ReimbursementDetail :=
  { tipoIdentificacionProveedorReembolso := "05",
    identificacionProveedorReembolso := "1712345678",
    codPaisPagoProveedorReembolso := "ECU", tipoProveedorReembolso := "01",
    codDocReembolso := "01", estabDocReembolso := "001",
    ptoEmiDocReembolso := "001", secuencialDocReembolso := "000000001",
    fechaEmisionDocReembolso := "01/06/2024",
    numeroautorizacionDocReemb := "1234567890", detalleImpuestos := [] }

/-- A valid version-2.0.0 invoice carrying a reimbursements block (and the
`codDocReembolso` the validator requires for it). -/
def exInvoiceR : Invoice :=
  { exInvoice with
    version := .v2_0_0,
    reembolsos := some [exReimb],
    infoFactura := { exInfoFactura with codDocReembolso := some "41" } }

/-- A valid invoice whose `infoAdicional` block is present but empty and
whose line item carries a present-but-empty `detallesAdicionales` array. -/
def exInvoiceEmptyAd : Invoice :=
  { exInvoice with
    infoAdicional := some ⟨[]⟩,
    detalles := [{ exDetail with detallesAdicionales := some [] }] }

/-- An abstract certificate for the signing examples. -/
def exCert : ForgeCertificate := ⟨[48, 130, 1, 1]⟩

/-- An abstract private key for the signing examples. -/
def exPrivKey : ForgePrivateKey := ⟨[48, 72, 2, 1]⟩

/-- A container with a certificate and a PKCS#8 shrouded key. -/
def exP12 : P12File := ⟨some [⟨some exCert⟩], some [⟨some exPrivKey⟩], none⟩

/-- A container whose modern (shrouded PKCS#8) slot yields an empty bag
list while the legacy `keyBag` slot holds a usable key. -/
def cexP12NoBag : P12File := ⟨some [⟨some exCert⟩], some [], some [⟨some exPrivKey⟩]⟩

/-- A container whose first shrouded bag lacks its `key` property while the
legacy `keyBag` slot holds a usable key (the fallback path). -/
def exP12Fallback : P12File := ⟨some [⟨some exCert⟩], some [⟨none⟩], some [⟨some exPrivKey⟩]⟩

/-- An unsigned example document. -/
def exDoc : XmlNode := .elem "factura" [("id", "comprobante")] [.text "x"]

/-- A signing engine that records the transform list it was handed as the
attributes of the produced signature node. -/
def cexSignEngine : SignParams → Option XmlNode :=
  fun ps => some (.elem "Signature" (ps.transforms.map fun t => (t, t)) [])

/-- A signing engine that always produces one fixed signature node. -/
def constSignEngine : SignParams → Option XmlNode := fun _ => some (.text "sig")

/-! ## Basic lemmas about the string primitives -/

theorem string_data_append (s t : String) : (s ++ t).data = s.data ++ t.data := by
  cases s; cases t; rfl

theorem string_length_data (s : String) : s.length = s.data.length := rfl

theorem string_mk_length (l : List Char) : (String.mk l).length = l.length := rfl

theorem string_length_append (s t : String) : (s ++ t).length = s.length + t.length := by
  simp only [string_length_data, string_data_append, List.length_append]

theorem digitChar_isDigit : ∀ k < 10, (Char.ofNat (48 + k)).isDigit := by decide

theorem isDigit_ne_dot (c : Char) (h : c.isDigit) : c ≠ '.' := by
  intro he
  subst he
  simp at h

theorem natToStringAux_digits (fuel n : Nat) : ∀ c ∈ natToStringAux fuel n, c.isDigit := by
  induction fuel generalizing n with
  | zero => simp [natToStringAux]
  | succ f ih =>
    intro c hc
    unfold natToStringAux at hc
    split at hc
    · rename_i hn
      simp only [List.mem_singleton] at hc
      subst hc
      exact digitChar_isDigit n hn
    · rcases List.mem_append.mp hc with h1 | h2
      · exact ih _ c h1
      · simp only [List.mem_singleton] at h2
        subst h2
        exact digitChar_isDigit _ (Nat.mod_lt _ (by decide))

theorem natToString_digits (n : Nat) : allDigits (natToString n) := by
  intro c hc
  exact natToStringAux_digits (n+1) n c hc

theorem natToString_len_one (n : Nat) (h : n ≤ 9) : (natToString n).length = 1 := by
  interval_cases n <;> decide

theorem allDigits_append {s t : String} (hs : allDigits s) (ht : allDigits t) :
    allDigits (s ++ t) := by
  intro c hc
  rw [string_data_append] at hc
  rcases List.mem_append.mp hc with h | h
  · exact hs c h
  · exact ht c h

theorem jsPadStart_length (s : String) (n : Nat) (c : Char) :
    (jsPadStart s n c).length = max n s.length := by
  unfold jsPadStart
  split
  · rename_i h
    rw [Nat.max_eq_right h]
  · rename_i h
    rw [string_length_append, string_mk_length, List.length_replicate]
    omega

theorem jsPadStart_digits (s : String) (n : Nat) (h : allDigits s) :
    allDigits (jsPadStart s n '0') := by
  unfold jsPadStart
  split
  · exact h
  · refine allDigits_append ?_ h
    intro c hc
    simp only [List.eq_of_mem_replicate hc]
    decide

/-! ## Lemmas about the check-digit loop -/

theorem weights_length : weights.length = 48 := by decide

theorem weights_eq_cycle : weights = (List.range 48).map cycleWeight := by decide

theorem sumWeighted_none_of_short :
    ∀ (ws : List Nat) (cs : List Char), cs.length < ws.length → sumWeighted cs ws = none := by
  intro ws
  induction ws with
  | nil => intro cs h; simp at h
  | cons w ws ih =>
    intro cs h
    cases cs with
    | nil => rfl
    | cons c cs =>
      simp only [List.length_cons, Nat.succ_lt_succ_iff] at h
      unfold sumWeighted
      rw [ih cs h]
      cases digitVal c <;> rfl

theorem sumWeighted_none_of_nondigit :
    ∀ (ws : List Nat) (cs : List Char) (c : Char),
      c ∈ cs.take ws.length → ¬ c.isDigit → sumWeighted cs ws = none := by
  intro ws
  induction ws with
  | nil => intro cs c hc _; simp at hc
  | cons w ws ih =>
    intro cs c hc hd
    cases cs with
    | nil => rfl
    | cons c0 cs =>
      simp only [List.length_cons, List.take_succ_cons, List.mem_cons] at hc
      unfold sumWeighted
      rcases hc with rfl | hc
      · simp [digitVal, hd]
      · rw [ih cs c hc hd]
        cases digitVal c0 <;> rfl

theorem sumWeighted_eq_zip :
    ∀ (ws : List Nat) (cs : List Char),
      ws.length ≤ cs.length → (∀ c ∈ cs.take ws.length, c.isDigit) →
      sumWeighted cs ws
        = some ((List.zipWith (fun c w => (c.toNat - 48) * w) cs ws).sum) := by
  intro ws
  induction ws with
  | nil => intro cs _ _; simp [sumWeighted]
  | cons w ws ih =>
    intro cs hlen hdig
    cases cs with
    | nil => simp at hlen
    | cons c cs =>
      simp only [List.length_cons, Nat.succ_le_succ_iff] at hlen
      simp only [List.length_cons, List.take_succ_cons, List.mem_cons] at hdig
      have hc : c.isDigit := hdig c (Or.inl rfl)
      unfold sumWeighted
      rw [ih cs hlen (fun x hx => hdig x (Or.inr hx))]
      simp [digitVal, hc, Char.toNat]

theorem getCheckDigit_le_nine (key : String) (d : Nat) (h : getCheckDigit key = some d) :
    d ≤ 9 := by
  unfold getCheckDigit at h
  cases hs : sumWeighted key.data weights with
  | none => rw [hs] at h; simp at h
  | some s =>
    rw [hs] at h
    simp only at h
    have hlt : s % 11 < 11 := Nat.mod_lt _ (by decide)
    split at h
    · simp at h; omega
    · split at h
      · simp at h; omega
      · simp at h
        omega

theorem getCheckDigit_eq_of_sum (key : String) (s : Nat)
    (h : sumWeighted key.data weights = some s) :
    getCheckDigit key
      = (if 11 - s % 11 = 11 then some 0
         else if 11 - s % 11 = 10 then some 1 else some (11 - s % 11)) := by
  simp only [getCheckDigit, h]

theorem getCheckDigit_some (key : String) (hlen : 48 ≤ key.length)
    (hdig : ∀ c ∈ key.data.take 48, c.isDigit) :
    ∃ d, getCheckDigit key = some d ∧ d ≤ 9 := by
  have h48 : weights.length ≤ key.data.length := by
    rw [weights_length]
    exact le_trans hlen (le_of_eq (string_length_data key))
  have hz := sumWeighted_eq_zip weights key.data h48 (by rw [weights_length]; exact hdig)
  rw [getCheckDigit_eq_of_sum key _ hz]
  have hlt : (List.zipWith (fun c w => (c.toNat - 48) * w) key.data weights).sum % 11 < 11 :=
    Nat.mod_lt _ (by decide)
  split
  · exact ⟨0, rfl, by omega⟩
  · split
    · exact ⟨1, rfl, by omega⟩
    · rename_i h1 h2
      exact ⟨_, rfl, by omega⟩

/-- C2: for every 48-character decimal-digit string, `getCheckDigit` agrees
with the reference mod-11 algorithm of the specification (weight cycle
[7,6,5,4,3,2] applied positionally, `raw = 11 - sum % 11`, 11 mapped to 0
and 10 mapped to 1); the result is a single digit at most 9, and the
function is deterministic. -/
theorem C2_checksum_reference (key : String) (hlen : key.length = 48) (hdig : allDigits key) :
    getCheckDigit key = some (specMod11 (key.data.map fun c => c.toNat - 48)) ∧
    (∀ d, getCheckDigit key = some d → d ≤ 9) ∧
    (∀ key2 : String, key2 = key → getCheckDigit key2 = getCheckDigit key) := by
  refine ⟨?_, fun d hd => getCheckDigit_le_nine key d hd, fun key2 h2 => by rw [h2]⟩
  have hdata : key.data.length = 48 := by
    rw [← string_length_data]; exact hlen
  have hz := sumWeighted_eq_zip weights key.data
    (by rw [weights_length, hdata]) (fun c hc => hdig c (List.mem_of_mem_take hc))
  rw [getCheckDigit_eq_of_sum key _ hz]
  have hmap : (key.data.map fun c => c.toNat - 48).length = 48 := by
    rw [List.length_map, hdata]
  have hzip : List.zipWith (fun d w => d * w) (key.data.map fun c => c.toNat - 48) weights
      = List.zipWith (fun c w => (c.toNat - 48) * w) key.data weights := by
    rw [List.zipWith_map_left]
  simp only [specMod11, hmap, ← weights_eq_cycle, hzip]
  split_ifs <;> rfl

/-- C2 witness: the theorem applied to the concrete 48-digit concatenation
of the specification example. -/
theorem C2_checksum_reference_witness :
    getCheckDigit exKey48 = some (specMod11 (exKey48.data.map fun c => c.toNat - 48)) :=
  (C2_checksum_reference exKey48 (by decide) (by decide)).1

/-- C7 as amended: `getCheckDigit` performs no input validation and never
throws.  For an input whose first 48 characters exist and are decimal
digits it returns a digit at most 9 (characters beyond position 47 are
ignored); for an input shorter than 48 characters, or containing a
non-digit among its first 48 characters, it returns JavaScript `NaN`
(modelled by `none`) — a returned value, not a raised error. -/
theorem C7_checksum_no_validation (key : String) :
    (48 ≤ key.length → (∀ c ∈ key.data.take 48, c.isDigit) →
      ∃ d, getCheckDigit key = some d ∧ d ≤ 9) ∧
    (key.length < 48 → getCheckDigit key = none) ∧
    (∀ c ∈ key.data.take 48, ¬ c.isDigit → getCheckDigit key = none) := by
  refine ⟨fun hlen hdig => getCheckDigit_some key hlen hdig, fun hshort => ?_, ?_⟩
  · have : key.data.length < weights.length := by
      rw [weights_length, ← string_length_data]
      exact hshort
    unfold getCheckDigit
    rw [sumWeighted_none_of_short weights key.data this]
  · intro c hc hd
    have h48 : c ∈ key.data.take weights.length := by rw [weights_length]; exact hc
    unfold getCheckDigit
    rw [sumWeighted_none_of_nondigit weights key.data c h48 hd]

/-- C7 counterexample: a 49-character all-ones input is not a 48-character
digit string, yet `getCheckDigit` does not fail — it returns the digit 4
computed from the first 48 characters. -/
theorem C7_cex :
    "1111111111111111111111111111111111111111111111111".length = 49 ∧
    getCheckDigit "1111111111111111111111111111111111111111111111111" = some 4 := by
  decide

/-- C7 witness: the amended theorem applied to the concrete 48-digit
example key. -/
theorem C7_checksum_no_validation_witness :
    ∃ d, getCheckDigit exKey48 = some d ∧ d ≤ 9 :=
  (C7_checksum_no_validation exKey48).1 (by decide) (by decide)

/-! ## Lemmas about `getAccessKey` -/

theorem formattedDateOf_none (p : AccessKeyParts) (h : (jsSplit '/' p.date).length ≠ 3) :
    formattedDateOf p = none := by
  unfold formattedDateOf
  split
  · rename_i heq
    rw [heq] at h
    simp at h
  · rfl

/-- C1 as amended.  The success case needs every component to consist of
decimal digits and to have (at most, for the padded components; exactly,
for the date and the tax ID) its nominal width — hypotheses the source
never checks: it only verifies that the date splits into three components
and that the padded concatenation has 48 characters, as the counterexample
shows.  Under these hypotheses `getAccessKey` returns the 49-digit key
`[date:8][docType:2][taxId:13][env:1][series:6][sequence:9][numericCode:8][emissionType:1][checkDigit:1]`
(the segments being exactly the padded components concatenated by
`keyWithoutCheckDigitOf`), whose last digit is the `getCheckDigit` result
over the first 48 characters.  The two error cases hold as claimed: a date
that does not split into exactly three components raises the date-format
error, and a padded concatenation of length other than 48 raises the
length error. -/
theorem C1_access_key (p : AccessKeyParts) :
    (∀ d1 d2 d3 : String,
      jsSplit '/' p.date = [d1, d2, d3] →
      (d1 ++ d2 ++ d3).length = 8 → allDigits (d1 ++ d2 ++ d3) →
      p.voucherType.length ≤ 2 → allDigits p.voucherType →
      p.ruc.length = 13 → allDigits p.ruc →
      p.environment.length ≤ 1 → allDigits p.environment →
      p.series.length ≤ 6 → allDigits p.series →
      p.sequence.length ≤ 9 → allDigits p.sequence →
      p.numericCode.length ≤ 8 → allDigits p.numericCode →
      p.emissionType.length ≤ 1 → allDigits p.emissionType →
      ∃ cd, cd ≤ 9 ∧
        getCheckDigit (keyWithoutCheckDigitOf p (d1 ++ d2 ++ d3)) = some cd ∧
        getAccessKey p = .ok (keyWithoutCheckDigitOf p (d1 ++ d2 ++ d3) ++ natToString cd) ∧
        (keyWithoutCheckDigitOf p (d1 ++ d2 ++ d3)).length = 48 ∧
        (keyWithoutCheckDigitOf p (d1 ++ d2 ++ d3) ++ natToString cd).length = 49 ∧
        allDigits (keyWithoutCheckDigitOf p (d1 ++ d2 ++ d3) ++ natToString cd) ∧
        (jsPadStart p.voucherType 2 '0').length = 2 ∧
        (jsPadStart p.environment 1 '0').length = 1 ∧
        (jsPadStart p.series 6 '0').length = 6 ∧
        (jsPadStart p.sequence 9 '0').length = 9 ∧
        (jsPadStart p.numericCode 8 '0').length = 8 ∧
        (jsPadStart p.emissionType 1 '0').length = 1 ∧
        (natToString cd).length = 1) ∧
    ((jsSplit '/' p.date).length ≠ 3 → getAccessKey p = .error dateFormatErrMsg) ∧
    (∀ fd, formattedDateOf p = some fd → (keyWithoutCheckDigitOf p fd).length ≠ 48 →
      getAccessKey p = .error (keyLengthErrMsg (keyWithoutCheckDigitOf p fd).length)) := by
  refine ⟨?_, ?_, ?_⟩
  · intro d1 d2 d3 hsplit hlen8 hdig8 hvt hvtd hruc hrucd henv henvd hser hserd
      hseq hseqd hnc hncd het hetd
    have hfd : formattedDateOf p = some (d1 ++ d2 ++ d3) := by
      unfold formattedDateOf
      rw [hsplit]
    set k := keyWithoutCheckDigitOf p (d1 ++ d2 ++ d3) with hk
    have hklen : k.length = 48 := by
      rw [hk]
      unfold keyWithoutCheckDigitOf
      rw [string_length_append, string_length_append, string_length_append,
          string_length_append, string_length_append, string_length_append,
          string_length_append]
      rw [hlen8, jsPadStart_length, jsPadStart_length, jsPadStart_length,
          jsPadStart_length, jsPadStart_length, jsPadStart_length, hruc]
      omega
    have hkdig : allDigits k := by
      rw [hk]
      unfold keyWithoutCheckDigitOf
      exact allDigits_append (allDigits_append (allDigits_append (allDigits_append
        (allDigits_append (allDigits_append (allDigits_append hdig8
          (jsPadStart_digits _ _ hvtd)) hrucd) (jsPadStart_digits _ _ henvd))
          (jsPadStart_digits _ _ hserd)) (jsPadStart_digits _ _ hseqd))
          (jsPadStart_digits _ _ hncd)) (jsPadStart_digits _ _ hetd)
    obtain ⟨cd, hcd, hcd9⟩ := getCheckDigit_some k (le_of_eq hklen.symm)
      (fun c hc => hkdig c (List.mem_of_mem_take hc))
    refine ⟨cd, hcd9, hcd, ?_, hklen, ?_, ?_, ?_, ?_, ?_, ?_, ?_, ?_, ?_⟩
    · unfold getAccessKey
      rw [hfd]
      simp only [← hk, hklen]
      rw [if_neg (by omega)]
      rw [hcd]
      rfl
    · rw [string_length_append, hklen, natToString_len_one cd hcd9]
    · exact allDigits_append hkdig (natToString_digits cd)
    · rw [jsPadStart_length]; omega
    · rw [jsPadStart_length]; omega
    · rw [jsPadStart_length]; omega
    · rw [jsPadStart_length]; omega
    · rw [jsPadStart_length]; omega
    · rw [jsPadStart_length]; omega
    · exact natToString_len_one cd hcd9
  · intro h
    unfold getAccessKey
    rw [formattedDateOf_none p h]
  · intro fd hfd hlen
    unfold getAccessKey
    rw [hfd]
    simp only [hlen]
    rw [if_pos hlen]

/-- C1 counterexample: for `cexAccessKeyParts` the date splits into exactly
three components and the padded concatenation has exactly 48 characters —
the only two conditions the claim requires — yet `getAccessKey` returns a
51-character value ending in `NaN` (the check digit computed over
non-digit characters is `NaN`), not a 49-digit string. -/
theorem C1_cex :
    (jsSplit '/' cexAccessKeyParts.date).length = 3 ∧
    (keyWithoutCheckDigitOf cexAccessKeyParts "aabbcccc").length = 48 ∧
    getAccessKey cexAccessKeyParts = .ok cexC1Result ∧
    cexC1Result.length = 51 := by
  refine ⟨by decide, by decide, rfl, by decide⟩

/-- C1 witness: the amended success case applied to the specification's
concrete example parts. -/
theorem C1_access_key_witness :
    ∃ cd, cd ≤ 9 ∧
      getCheckDigit (keyWithoutCheckDigitOf exAccessKeyParts ("15" ++ "06" ++ "2024")) = some cd ∧
      getAccessKey exAccessKeyParts
        = .ok (keyWithoutCheckDigitOf exAccessKeyParts ("15" ++ "06" ++ "2024") ++ natToString cd) ∧
      (keyWithoutCheckDigitOf exAccessKeyParts ("15" ++ "06" ++ "2024")).length = 48 ∧
      (keyWithoutCheckDigitOf exAccessKeyParts ("15" ++ "06" ++ "2024") ++ natToString cd).length = 49 ∧
      allDigits (keyWithoutCheckDigitOf exAccessKeyParts ("15" ++ "06" ++ "2024") ++ natToString cd) ∧
      (jsPadStart exAccessKeyParts.voucherType 2 '0').length = 2 ∧
      (jsPadStart exAccessKeyParts.environment 1 '0').length = 1 ∧
      (jsPadStart exAccessKeyParts.series 6 '0').length = 6 ∧
      (jsPadStart exAccessKeyParts.sequence 9 '0').length = 9 ∧
      (jsPadStart exAccessKeyParts.numericCode 8 '0').length = 8 ∧
      (jsPadStart exAccessKeyParts.emissionType 1 '0').length = 1 ∧
      (natToString cd).length = 1 :=
  (C1_access_key exAccessKeyParts).1 "15" "06" "2024" (by decide) (by decide) (by decide)
    (by decide) (by decide) (by decide) (by decide) (by decide) (by decide) (by decide)
    (by decide) (by decide) (by decide) (by decide) (by decide) (by decide) (by decide)

/-! ## Lemmas about the XML observables -/

theorem txtMatch_elem_ne (tag t : String) (a : List (String × String)) (l : List XmlNode)
    (h : t ≠ tag) : txtMatch tag (.elem t a l) = none := by
  unfold txtMatch
  cases l with
  | nil => rfl
  | cons x xs =>
    cases x with
    | text s =>
      cases xs with
      | nil => simp [h]
      | cons y ys => rfl
    | elem t2 a2 l2 =>
      cases xs with
      | nil => rfl
      | cons y ys => rfl

theorem txtMatch_txtEle_eq (tag v : String) : txtMatch tag (txtEle tag v) = some v := by
  simp [txtMatch, txtEle]

theorem findSome?_txtMatch_optTxtEle (tag t : String) (v : Option String) (h : t ≠ tag) :
    (optTxtEle t v).findSome? (txtMatch tag) = none := by
  cases v with
  | none => rfl
  | some s =>
    simp only [optTxtEle]
    split
    · rfl
    · simp [txtEle, List.findSome?, txtMatch_elem_ne tag t _ _ h]

theorem findSome?_txtMatch_addAdditionalDetails (tag : String)
    (o : Option (List AdditionalDetail)) (h : "detallesAdicionales" ≠ tag) :
    (addAdditionalDetails o).findSome? (txtMatch tag) = none := by
  cases o with
  | none => rfl
  | some ds =>
    unfold addAdditionalDetails
    split
    · simp [List.findSome?, txtMatch_elem_ne _ _ _ _ h]
    · rfl

theorem childNames_optTxtEle (t : String) (v : Option String) :
    (optTxtEle t v).filterMap elemName = if jsTruthyStr v then [t] else [] := by
  cases v with
  | none => rfl
  | some s =>
    simp only [optTxtEle, jsTruthyStr]
    by_cases hs : s = "" <;> simp [hs, txtEle, elemName]

/-! ## Lemmas about `validateInvoice` and `generateInvoiceXML` -/

theorem validate_err_code (inv : Invoice) (code : String)
    (h : ¬ isEightDigitCode code = true) :
    validateInvoice inv code = .error msgNumericCode := by
  unfold validateInvoice
  rw [if_pos h]

theorem validate_err_bloques (inv : Invoice) (code : String)
    (h0 : isEightDigitCode code = true) (h1 : inv.detalles.length = 0) :
    validateInvoice inv code = .error msgBloques := by
  unfold validateInvoice
  rw [if_neg (not_not_intro h0), if_pos h1]

theorem validate_err_pagos (inv : Invoice) (code : String)
    (h0 : isEightDigitCode code = true) (h1 : inv.detalles.length ≠ 0)
    (h2 : (jsAbs ((sumaPagos inv).sub inv.infoFactura.importeTotal)).gt centTol = true) :
    validateInvoice inv code = .error msgPagos := by
  unfold validateInvoice
  rw [if_neg (not_not_intro h0), if_neg h1, if_pos h2]

theorem validate_err_detsum (inv : Invoice) (code : String)
    (h0 : isEightDigitCode code = true) (h1 : inv.detalles.length ≠ 0)
    (h2 : (jsAbs ((sumaPagos inv).sub inv.infoFactura.importeTotal)).gt centTol = false)
    (h3 : (jsAbs ((sumaDetalles inv).sub inv.infoFactura.totalSinImpuestos)).gt centTol = true) :
    validateInvoice inv code = .error msgDetallesSum := by
  unfold validateInvoice
  rw [if_neg (not_not_intro h0), if_neg h1, if_neg (by simp [h2]), if_pos h3]

theorem validate_err_placa (inv : Invoice) (code : String)
    (h0 : isEightDigitCode code = true) (h1 : inv.detalles.length ≠ 0)
    (h2 : (jsAbs ((sumaPagos inv).sub inv.infoFactura.importeTotal)).gt centTol = false)
    (h3 : (jsAbs ((sumaDetalles inv).sub inv.infoFactura.totalSinImpuestos)).gt centTol = false)
    (h4 : jsTruthyStr inv.infoFactura.placa = true ∧ inv.infoTributaria.codDoc ≠ "01") :
    validateInvoice inv code = .error msgPlaca := by
  unfold validateInvoice
  rw [if_neg (not_not_intro h0), if_neg h1, if_neg (by simp [h2]), if_neg (by simp [h3]),
      if_pos h4]

theorem validate_err_reembolso (inv : Invoice) (code : String)
    (h0 : isEightDigitCode code = true) (h1 : inv.detalles.length ≠ 0)
    (h2 : (jsAbs ((sumaPagos inv).sub inv.infoFactura.importeTotal)).gt centTol = false)
    (h3 : (jsAbs ((sumaDetalles inv).sub inv.infoFactura.totalSinImpuestos)).gt centTol = false)
    (h4 : ¬ (jsTruthyStr inv.infoFactura.placa = true ∧ inv.infoTributaria.codDoc ≠ "01"))
    (h5 : inv.reembolsos.isSome = true ∧ ¬ jsTruthyStr inv.infoFactura.codDocReembolso = true) :
    validateInvoice inv code = .error msgReembolso := by
  unfold validateInvoice
  rw [if_neg (not_not_intro h0), if_neg h1, if_neg (by simp [h2]), if_neg (by simp [h3]),
      if_neg h4, if_pos h5]

theorem validate_err_sustitutiva (inv : Invoice) (code : String)
    (h0 : isEightDigitCode code = true) (h1 : inv.detalles.length ≠ 0)
    (h2 : (jsAbs ((sumaPagos inv).sub inv.infoFactura.importeTotal)).gt centTol = false)
    (h3 : (jsAbs ((sumaDetalles inv).sub inv.infoFactura.totalSinImpuestos)).gt centTol = false)
    (h4 : ¬ (jsTruthyStr inv.infoFactura.placa = true ∧ inv.infoTributaria.codDoc ≠ "01"))
    (h5 : ¬ (inv.reembolsos.isSome = true ∧ ¬ jsTruthyStr inv.infoFactura.codDocReembolso = true))
    (h6 : inv.infoSustitutivaGuiaRemision.isSome = true
          ∧ versionString inv.version ∉ ["2.0.0", "2.1.0"]) :
    validateInvoice inv code = .error msgSustitutiva := by
  unfold validateInvoice
  rw [if_neg (not_not_intro h0), if_neg h1, if_neg (by simp [h2]), if_neg (by simp [h3]),
      if_neg h4, if_neg h5, if_pos h6]

theorem validate_err_rubros (inv : Invoice) (code : String)
    (h0 : isEightDigitCode code = true) (h1 : inv.detalles.length ≠ 0)
    (h2 : (jsAbs ((sumaPagos inv).sub inv.infoFactura.importeTotal)).gt centTol = false)
    (h3 : (jsAbs ((sumaDetalles inv).sub inv.infoFactura.totalSinImpuestos)).gt centTol = false)
    (h4 : ¬ (jsTruthyStr inv.infoFactura.placa = true ∧ inv.infoTributaria.codDoc ≠ "01"))
    (h5 : ¬ (inv.reembolsos.isSome = true ∧ ¬ jsTruthyStr inv.infoFactura.codDocReembolso = true))
    (h6 : ¬ (inv.infoSustitutivaGuiaRemision.isSome = true
             ∧ versionString inv.version ∉ ["2.0.0", "2.1.0"]))
    (h7 : inv.otrosRubrosTerceros.isSome = true
          ∧ versionString inv.version ∉ ["2.0.0", "2.1.0"]) :
    validateInvoice inv code = .error msgRubros := by
  unfold validateInvoice
  rw [if_neg (not_not_intro h0), if_neg h1, if_neg (by simp [h2]), if_neg (by simp [h3]),
      if_neg h4, if_neg h5, if_neg h6, if_pos h7]

theorem validate_ok (inv : Invoice) (code : String)
    (h0 : isEightDigitCode code = true) (h1 : inv.detalles.length ≠ 0)
    (h2 : (jsAbs ((sumaPagos inv).sub inv.infoFactura.importeTotal)).gt centTol = false)
    (h3 : (jsAbs ((sumaDetalles inv).sub inv.infoFactura.totalSinImpuestos)).gt centTol = false)
    (h4 : ¬ (jsTruthyStr inv.infoFactura.placa = true ∧ inv.infoTributaria.codDoc ≠ "01"))
    (h5 : ¬ (inv.reembolsos.isSome = true ∧ ¬ jsTruthyStr inv.infoFactura.codDocReembolso = true))
    (h6 : ¬ (inv.infoSustitutivaGuiaRemision.isSome = true
             ∧ versionString inv.version ∉ ["2.0.0", "2.1.0"]))
    (h7 : ¬ (inv.otrosRubrosTerceros.isSome = true
             ∧ versionString inv.version ∉ ["2.0.0", "2.1.0"])) :
    validateInvoice inv code = .ok () := by
  unfold validateInvoice
  rw [if_neg (not_not_intro h0), if_neg h1, if_neg (by simp [h2]), if_neg (by simp [h3]),
      if_neg h4, if_neg h5, if_neg h6, if_neg h7]

theorem generateInvoiceXML_ok_shape (inv : Invoice) (code : String) (xml : XmlNode)
    (key : String) (h : generateInvoiceXML inv code = .ok (xml, key)) :
    xml = buildFactura inv key ∧ getAccessKey (accessKeyPartsOf inv code) = .ok key ∧
      validateInvoice inv code = .ok () := by
  unfold generateInvoiceXML at h
  cases hv : validateInvoice inv code with
  | error e =>
    rw [hv] at h
    exact Except.noConfusion h
  | ok u =>
    cases u
    rw [hv] at h
    simp only at h
    cases hk : getAccessKey (accessKeyPartsOf inv code) with
    | error e =>
      rw [hk] at h
      exact Except.noConfusion h
    | ok k2 =>
      rw [hk] at h
      simp only [Except.ok.injEq, Prod.mk.injEq] at h
      obtain ⟨hx, hkey⟩ := h
      subst hkey
      exact ⟨hx.symm, rfl, rfl⟩

/-- C5: `generateInvoiceXML` first rejects a numeric code that is not
exactly 8 decimal digits, then checks the seven validation rules in the
claimed order, the first failure producing the corresponding error; when
everything passes, the result is access-key generation followed by the
document build (so key generation happens only after validation).  The
presence parts of rule 1 concerning `infoTributaria` and `infoFactura` are
enforced by the `Invoice` type itself (they are mandatory fields of the
TypeScript interface as well); the reachable content of rule 1 is the
non-empty `detalles` check. -/
theorem C5_validation_order (inv : Invoice) (code : String) :
    (¬ isEightDigitCode code = true →
      generateInvoiceXML inv code = .error msgNumericCode) ∧
    (isEightDigitCode code = true → ¬ rule1Ok inv →
      generateInvoiceXML inv code = .error msgBloques) ∧
    (isEightDigitCode code = true → rule1Ok inv → ¬ rule2Ok inv →
      generateInvoiceXML inv code = .error msgPagos) ∧
    (isEightDigitCode code = true → rule1Ok inv → rule2Ok inv → ¬ rule3Ok inv →
      generateInvoiceXML inv code = .error msgDetallesSum) ∧
    (isEightDigitCode code = true → rule1Ok inv → rule2Ok inv → rule3Ok inv →
      ¬ rule4Ok inv → generateInvoiceXML inv code = .error msgPlaca) ∧
    (isEightDigitCode code = true → rule1Ok inv → rule2Ok inv → rule3Ok inv →
      rule4Ok inv → ¬ rule5Ok inv → generateInvoiceXML inv code = .error msgReembolso) ∧
    (isEightDigitCode code = true → rule1Ok inv → rule2Ok inv → rule3Ok inv →
      rule4Ok inv → rule5Ok inv → ¬ rule6Ok inv →
      generateInvoiceXML inv code = .error msgSustitutiva) ∧
    (isEightDigitCode code = true → rule1Ok inv → rule2Ok inv → rule3Ok inv →
      rule4Ok inv → rule5Ok inv → rule6Ok inv → ¬ rule7Ok inv →
      generateInvoiceXML inv code = .error msgRubros) ∧
    (isEightDigitCode code = true → rule1Ok inv → rule2Ok inv → rule3Ok inv →
      rule4Ok inv → rule5Ok inv → rule6Ok inv → rule7Ok inv →
      generateInvoiceXML inv code
        = (getAccessKey (accessKeyPartsOf inv code)).map
            (fun k => (buildFactura inv k, k))) := by
  have hb2 : ∀ b : Bool, ¬ b = false → b = true := by decide
  refine ⟨?_, ?_, ?_, ?_, ?_, ?_, ?_, ?_, ?_⟩
  · intro h0
    unfold generateInvoiceXML
    rw [validate_err_code inv code h0]
  · intro h0 h1
    unfold generateInvoiceXML
    rw [validate_err_bloques inv code h0 (not_not.mp h1)]
  · intro h0 h1 h2
    unfold generateInvoiceXML
    rw [validate_err_pagos inv code h0 h1 (hb2 _ h2)]
  · intro h0 h1 h2 h3
    unfold generateInvoiceXML
    rw [validate_err_detsum inv code h0 h1 h2 (hb2 _ h3)]
  · intro h0 h1 h2 h3 h4
    unfold generateInvoiceXML
    rw [validate_err_placa inv code h0 h1 h2 h3 (by simp only [rule4Ok] at h4; push_neg at h4; exact h4)]
  · intro h0 h1 h2 h3 h4 h5
    unfold generateInvoiceXML
    rw [validate_err_reembolso inv code h0 h1 h2 h3
      (fun hg => hg.2 (h4 hg.1)) (by simp only [rule5Ok] at h5; push_neg at h5; exact h5)]
  · intro h0 h1 h2 h3 h4 h5 h6
    unfold generateInvoiceXML
    rw [validate_err_sustitutiva inv code h0 h1 h2 h3
      (fun hg => hg.2 (h4 hg.1)) (fun hg => hg.2 (h5 hg.1))
      (by simp only [rule6Ok] at h6; push_neg at h6; exact h6)]
  · intro h0 h1 h2 h3 h4 h5 h6 h7
    unfold generateInvoiceXML
    rw [validate_err_rubros inv code h0 h1 h2 h3
      (fun hg => hg.2 (h4 hg.1)) (fun hg => hg.2 (h5 hg.1))
      (fun hg => hg.2 (h6 hg.1)) (by simp only [rule7Ok] at h7; push_neg at h7; exact h7)]
  · intro h0 h1 h2 h3 h4 h5 h6 h7
    unfold generateInvoiceXML
    rw [validate_ok inv code h0 h1 h2 h3
      (fun hg => hg.2 (h4 hg.1)) (fun hg => hg.2 (h5 hg.1))
      (fun hg => hg.2 (h6 hg.1)) (fun hg => hg.2 (h7 hg.1))]
    cases hk : getAccessKey (accessKeyPartsOf inv code) with
    | error e => simp [Except.map]
    | ok k => simp [Except.map]

/-- C5 witness: on the invoice whose payments sum to 100.00 against a
declared total of 100.02 (rules before the payment rule passing), the
payment-mismatch error is raised. -/
theorem C5_validation_order_witness :
    generateInvoiceXML exInvoiceBadPagos "12345678" = .error msgPagos :=
  (C5_validation_order exInvoiceBadPagos "12345678").2.2.1 (by decide) (by decide) (by decide)

theorem firstChildText_claveAcceso (ti : TaxInfo) (accessKey : String) :
    firstChildText "claveAcceso" (buildInfoTributaria ti accessKey) = some accessKey := by
  unfold firstChildText buildInfoTributaria elemChildren
  simp only [List.findSome?_append, List.findSome?_cons, txtMatch, txtEle,
    findSome?_txtMatch_optTxtEle _ _ _ (by decide : "nombreComercial" ≠ "claveAcceso")]
  simp

/-- C6: the builder is deterministic, never takes the access key from the
caller, and embeds exactly the key it returns: (1) equal inputs give equal
results (the whole computation is a pure function of the invoice and the
numeric code, and the serialized bytes are a pure function of the returned
tree); (2) on success, the `infoTributaria` block's `claveAcceso` text is
exactly the returned access key; (3) the result is independent of the
caller-supplied `infoTributaria.claveAcceso` field. -/
theorem C6_access_key_consistency :
    (∀ (inv1 inv2 : Invoice) (c1 c2 : String), inv1 = inv2 → c1 = c2 →
      generateInvoiceXML inv1 c1 = generateInvoiceXML inv2 c2) ∧
    (∀ (inv : Invoice) (code : String) (xml : XmlNode) (key : String),
      generateInvoiceXML inv code = .ok (xml, key) →
      ∃ tribNode, nthChild xml 0 = some tribNode ∧
        elemName tribNode = some "infoTributaria" ∧
        firstChildText "claveAcceso" tribNode = some key) ∧
    (∀ (inv : Invoice) (code v : String),
      generateInvoiceXML
          { inv with infoTributaria := { inv.infoTributaria with claveAcceso := v } } code
        = generateInvoiceXML inv code) := by
  refine ⟨fun inv1 inv2 c1 c2 h1 h2 => by rw [h1, h2], ?_, ?_⟩
  · intro inv code xml key h
    obtain ⟨hx, -, -⟩ := generateInvoiceXML_ok_shape inv code xml key h
    subst hx
    exact ⟨buildInfoTributaria inv.infoTributaria key, rfl, rfl,
      firstChildText_claveAcceso inv.infoTributaria key⟩
  · intro inv code v
    rfl

/-- C6 witness: on the concrete example invoice the embedded `claveAcceso`
equals the returned access key. -/
theorem C6_access_key_consistency_witness :
    ∃ tribNode, nthChild (buildFactura exInvoice exAccessKey) 0 = some tribNode ∧
      elemName tribNode = some "infoTributaria" ∧
      firstChildText "claveAcceso" tribNode = some exAccessKey :=
  C6_access_key_consistency.2.1 exInvoice "12345678"
    (buildFactura exInvoice exAccessKey) exAccessKey rfl

/-- C3 as amended: on success the document has a single root `factura` with
`id="comprobante"` and the schema-version attribute, and its top-level
child blocks are exactly, in order: `infoTributaria`, `infoFactura`,
`detalles`, and — present exactly when the input's `infoAdicional` is
present with a non-empty `campos` array — `infoAdicional`.  Contrary to
the claim, the withholdings (`retenciones`), reimbursements
(`reembolsos`), substitute-remission-guide (`infoSustitutivaGuiaRemision`)
and third-party-values (`otrosRubrosTerceros`) blocks are never emitted,
even when present on the (validated) input. -/
theorem C3_root_structure (inv : Invoice) (code : String) (xml : XmlNode) (key : String)
    (h : generateInvoiceXML inv code = .ok (xml, key)) :
    elemName xml = some "factura" ∧
    elemAttrs xml = [("id", "comprobante"), ("version", versionString inv.version)] ∧
    childNames xml = ["infoTributaria", "infoFactura", "detalles"]
        ++ (match inv.infoAdicional with
            | some ai => if 0 < ai.campos.length then ["infoAdicional"] else []
            | none => []) ∧
    "retenciones" ∉ childNames xml ∧ "reembolsos" ∉ childNames xml ∧
    "infoSustitutivaGuiaRemision" ∉ childNames xml ∧
    "otrosRubrosTerceros" ∉ childNames xml := by
  obtain ⟨hx, -, -⟩ := generateInvoiceXML_ok_shape inv code xml key h
  subst hx
  have hn : childNames (buildFactura inv key)
      = ["infoTributaria", "infoFactura", "detalles"]
        ++ (match inv.infoAdicional with
            | some ai => if 0 < ai.campos.length then ["infoAdicional"] else []
            | none => []) := by
    unfold childNames buildFactura elemChildren
    cases inv.infoAdicional with
    | none => simp [elemName, buildInfoTributaria, buildInfoFactura]
    | some ai =>
      by_cases hc : 0 < ai.campos.length <;>
        simp [hc, elemName, buildInfoTributaria, buildInfoFactura, buildInfoAdicional]
  have htail : ∀ s : String, s ≠ "infoAdicional" →
      s ∉ (match inv.infoAdicional with
           | some ai => if 0 < ai.campos.length then ["infoAdicional"] else []
           | none => ([] : List String)) := by
    intro s hs
    cases inv.infoAdicional with
    | none => simp
    | some ai => split <;> simp [hs]
  refine ⟨rfl, rfl, hn, ?_, ?_, ?_, ?_⟩
  all_goals
    rw [hn]
    intro hmem
    rcases List.mem_append.mp hmem with hm | hm
    · simp at hm
    · exact htail _ (by decide) hm

/-- C3 counterexample: `exInvoiceR` carries a reimbursements block and
passes validation, yet the produced document has no `reembolsos` child —
the claim's "present in the output exactly when present on the input" fails
for the optional blocks. -/
theorem C3_cex :
    exInvoiceR.reembolsos.isSome = true ∧
    generateInvoiceXML exInvoiceR "12345678"
      = .ok (buildFactura exInvoiceR exAccessKey, exAccessKey) ∧
    "reembolsos" ∉ childNames (buildFactura exInvoiceR exAccessKey) :=
  ⟨rfl, rfl, by decide⟩

/-- C3 witness: the amended theorem applied to the concrete example
invoice (whose `infoAdicional` is absent). -/
theorem C3_root_structure_witness :
    elemName (buildFactura exInvoice exAccessKey) = some "factura" ∧
    elemAttrs (buildFactura exInvoice exAccessKey)
      = [("id", "comprobante"), ("version", versionString exInvoice.version)] ∧
    childNames (buildFactura exInvoice exAccessKey)
      = ["infoTributaria", "infoFactura", "detalles"] ∧
    "retenciones" ∉ childNames (buildFactura exInvoice exAccessKey) ∧
    "reembolsos" ∉ childNames (buildFactura exInvoice exAccessKey) ∧
    "infoSustitutivaGuiaRemision" ∉ childNames (buildFactura exInvoice exAccessKey) ∧
    "otrosRubrosTerceros" ∉ childNames (buildFactura exInvoice exAccessKey) :=
  C3_root_structure exInvoice "12345678" (buildFactura exInvoice exAccessKey) exAccessKey rfl

/-- C10: present-but-empty optional collections behave like absent ones —
an `infoAdicional` block whose `campos` array is empty produces no
`infoAdicional` element, and a line item whose `detallesAdicionales` array
is present but empty produces no `detallesAdicionales` element. -/
theorem C10_empty_optional_collections (inv : Invoice) (code : String) (xml : XmlNode)
    (key : String) (h : generateInvoiceXML inv code = .ok (xml, key)) :
    (∀ ai, inv.infoAdicional = some ai → ai.campos = [] →
      childNames xml = ["infoTributaria", "infoFactura", "detalles"]) ∧
    (∀ i d, inv.detalles.get? i = some d → d.detallesAdicionales = some [] →
      ∃ detN dn, nthChild xml 2 = some detN ∧ (elemChildren detN).get? i = some dn ∧
        "detallesAdicionales" ∉ childNames dn) := by
  obtain ⟨hx, -, -⟩ := generateInvoiceXML_ok_shape inv code xml key h
  subst hx
  constructor
  · intro ai hai hcampos
    unfold childNames buildFactura elemChildren
    rw [hai]
    simp [hcampos, elemName, buildInfoTributaria, buildInfoFactura]
  · intro i d hi hda
    refine ⟨.elem "detalles" [] (inv.detalles.map (buildDetalle inv.version)),
      buildDetalle inv.version d, rfl, ?_, ?_⟩
    · show (inv.detalles.map (buildDetalle inv.version)).get? i = _
      rw [List.get?_map, hi]
      rfl
    · unfold childNames buildDetalle elemChildren
      rw [hda]
      simp only [List.filterMap_append, childNames_optTxtEle, addAdditionalDetails]
      simp [elemName, txtEle]

/-- C10 witness: the theorem applied to the invoice whose `infoAdicional`
has an empty `campos` array and whose line item has an empty
`detallesAdicionales` array. -/
theorem C10_empty_optional_collections_witness :
    childNames (buildFactura exInvoiceEmptyAd exAccessKey)
      = ["infoTributaria", "infoFactura", "detalles"] ∧
    ∃ detN dn, nthChild (buildFactura exInvoiceEmptyAd exAccessKey) 2 = some detN ∧
      (elemChildren detN).get? 0 = some dn ∧
      "detallesAdicionales" ∉ childNames dn :=
  ⟨(C10_empty_optional_collections exInvoiceEmptyAd "12345678"
      (buildFactura exInvoiceEmptyAd exAccessKey) exAccessKey rfl).1 ⟨[]⟩ rfl rfl,
   (C10_empty_optional_collections exInvoiceEmptyAd "12345678"
      (buildFactura exInvoiceEmptyAd exAccessKey) exAccessKey rfl).2 0
      { exDetail with detallesAdicionales := some [] } rfl rfl⟩

/-! ## Lemmas for the serialization-precision claim -/

theorem string_append_assoc (s t u : String) : s ++ t ++ u = s ++ (t ++ u) := by
  cases s; cases t; cases u
  show String.mk _ = String.mk _
  simp [String.append, List.append_assoc]

theorem fracPad_no_dot (n d : Nat) :
    ∀ c ∈ (List.range d).reverse.map (fun i => Char.ofNat (48 + n / 10 ^ i % 10)), c ≠ '.' := by
  intro c hc
  simp only [List.mem_map] at hc
  obtain ⟨i, -, rfl⟩ := hc
  exact isDigit_ne_dot _ (digitChar_isDigit _ (Nat.mod_lt _ (by decide)))

theorem jsToFixedNat_decimals (a b n : Nat) (h : 0 < n) :
    hasDecimalPlaces (jsToFixedNat a b n) n := by
  unfold jsToFixedNat
  rw [if_neg (by omega)]
  refine ⟨natToString ((2 * a * 10 ^ n + b) / (2 * b) / 10 ^ n),
    (List.range n).reverse.map
      (fun i => Char.ofNat (48 + (2 * a * 10 ^ n + b) / (2 * b) % 10 ^ n / 10 ^ i % 10)),
    rfl, by simp, fracPad_no_dot _ n⟩

theorem jsToFixed_decimals (x : JSNum) (n : Nat) (h : 0 < n) :
    hasDecimalPlaces (jsToFixed x n) n := by
  unfold jsToFixed
  split
  · obtain ⟨a, b, hs, hb, hdot⟩ := jsToFixedNat_decimals x.num.natAbs x.den n h
    exact ⟨"-" ++ a, b, by rw [hs, ← string_append_assoc, ← string_append_assoc], hb, hdot⟩
  · exact jsToFixedNat_decimals x.num.natAbs x.den n h

theorem txtMatch_elem_eq (tag : String) (a : List (String × String)) (s : String) :
    txtMatch tag (.elem tag a [.text s]) = some s := by
  simp [txtMatch]

theorem firstChildText_buildInfoFactura_monetary (fi : InvoiceInfo) :
    firstChildText "totalSinImpuestos" (buildInfoFactura fi)
      = some (jsToFixed fi.totalSinImpuestos 2) ∧
    firstChildText "totalDescuento" (buildInfoFactura fi)
      = some (jsToFixed fi.totalDescuento 2) ∧
    firstChildText "propina" (buildInfoFactura fi) = some (jsToFixed fi.propina 2) ∧
    firstChildText "importeTotal" (buildInfoFactura fi)
      = some (jsToFixed fi.importeTotal 2) := by
  unfold firstChildText buildInfoFactura elemChildren
  refine ⟨?_, ?_, ?_, ?_⟩ <;>
    simp [List.findSome?_append, List.findSome?_cons, findSome?_txtMatch_optTxtEle,
      txtMatch_elem_ne, txtMatch_elem_eq, txtEle]

theorem firstChildText_buildDetalle (v : InvoiceVersion) (d : Detail) :
    firstChildText "cantidad" (buildDetalle v d)
      = some (jsToFixed d.cantidad (precisionOf v)) ∧
    firstChildText "precioUnitario" (buildDetalle v d)
      = some (jsToFixed d.precioUnitario (precisionOf v)) ∧
    firstChildText "descuento" (buildDetalle v d) = some (jsToFixed d.descuento 2) ∧
    firstChildText "precioTotalSinImpuesto" (buildDetalle v d)
      = some (jsToFixed d.precioTotalSinImpuesto 2) := by
  unfold firstChildText buildDetalle elemChildren
  refine ⟨?_, ?_, ?_, ?_⟩ <;>
    simp [List.findSome?_append, List.findSome?_cons, findSome?_txtMatch_optTxtEle,
      findSome?_txtMatch_addAdditionalDetails, txtMatch_elem_ne, txtMatch_elem_eq,
      txtEle]

theorem firstChildText_buildPago_total (p : Pago) :
    firstChildText "total" (buildPago p) = some (jsToFixed p.total 2) := by
  unfold firstChildText buildPago elemChildren
  simp [List.findSome?_cons, List.findSome?_append, txtMatch, txtEle]

theorem firstChildText_buildTotalImpuesto (t : TotalTax) :
    firstChildText "baseImponible" (buildTotalImpuesto t)
      = some (jsToFixed t.baseImponible 2) ∧
    firstChildText "valor" (buildTotalImpuesto t) = some (jsToFixed t.valor 2) := by
  unfold firstChildText buildTotalImpuesto elemChildren
  refine ⟨?_, ?_⟩ <;> simp [List.findSome?_cons, txtMatch, txtEle]

theorem firstChildText_buildImpuesto (t : Tax) :
    firstChildText "baseImponible" (buildImpuesto t) = some (jsToFixed t.baseImponible 2) ∧
    firstChildText "valor" (buildImpuesto t) = some (jsToFixed t.valor 2) := by
  unfold firstChildText buildImpuesto elemChildren
  refine ⟨?_, ?_⟩ <;> simp [List.findSome?_cons, txtMatch, txtEle]

theorem childElemNamed_buildInfoFactura (fi : InvoiceInfo) :
    childElemNamed "totalConImpuestos" (buildInfoFactura fi)
      = some (.elem "totalConImpuestos" [] (fi.totalConImpuestos.map buildTotalImpuesto)) ∧
    childElemNamed "pagos" (buildInfoFactura fi)
      = some (.elem "pagos" [] (fi.pagos.map buildPago)) := by
  unfold childElemNamed buildInfoFactura elemChildren
  rcases fi.contribuyenteEspecial with - | s1 <;> rcases fi.direccionComprador with - | s2
  · refine ⟨?_, ?_⟩ <;> simp [optTxtEle, txtEle, elemName, List.find?]
  · by_cases h2 : s2 = "" <;>
      · refine ⟨?_, ?_⟩ <;> simp [optTxtEle, h2, txtEle, elemName, List.find?]
  · by_cases h1 : s1 = "" <;>
      · refine ⟨?_, ?_⟩ <;> simp [optTxtEle, h1, txtEle, elemName, List.find?]
  · by_cases h1 : s1 = "" <;> by_cases h2 : s2 = "" <;>
      · refine ⟨?_, ?_⟩ <;> simp [optTxtEle, h1, h2, txtEle, elemName, List.find?]

theorem childElemNamed_buildDetalle_impuestos (v : InvoiceVersion) (d : Detail) :
    childElemNamed "impuestos" (buildDetalle v d)
      = some (.elem "impuestos" [] (d.impuestos.map buildImpuesto)) := by
  unfold childElemNamed buildDetalle elemChildren addAdditionalDetails
  rcases d.codigoAuxiliar with - | s1 <;> rcases d.detallesAdicionales with - | ds
  · simp [optTxtEle, txtEle, elemName, List.find?]
  · by_cases hd : 0 < ds.length <;> simp [optTxtEle, hd, txtEle, elemName, List.find?]
  · by_cases h1 : s1 = "" <;> simp [optTxtEle, h1, txtEle, elemName, List.find?]
  · by_cases h1 : s1 = "" <;> by_cases hd : 0 < ds.length <;>
      simp [optTxtEle, h1, hd, txtEle, elemName, List.find?]

/-- C4: on success, every monetary value is serialized with exactly 2
decimal places and the quantity and unit price of every line item with
`precisionOf` decimals — 6 when the schema version is 1.1.0 or 2.1.0,
otherwise 2; `jsToFixed` always produces exactly the requested number of
decimal places, and quantity 1.5 serializes as `1.500000` with 6 decimals
(versions 1.1.0/2.1.0) and as `1.50` with 2 decimals (version 1.0.0). -/
theorem C4_serialization_precision (inv : Invoice) (code : String) (xml : XmlNode)
    (key : String) (h : generateInvoiceXML inv code = .ok (xml, key)) :
    (∃ fiN, nthChild xml 1 = some fiN ∧
      firstChildText "totalSinImpuestos" fiN
        = some (jsToFixed inv.infoFactura.totalSinImpuestos 2) ∧
      firstChildText "totalDescuento" fiN
        = some (jsToFixed inv.infoFactura.totalDescuento 2) ∧
      firstChildText "propina" fiN = some (jsToFixed inv.infoFactura.propina 2) ∧
      firstChildText "importeTotal" fiN = some (jsToFixed inv.infoFactura.importeTotal 2) ∧
      childElemNamed "totalConImpuestos" fiN
        = some (.elem "totalConImpuestos" []
            (inv.infoFactura.totalConImpuestos.map buildTotalImpuesto)) ∧
      childElemNamed "pagos" fiN
        = some (.elem "pagos" [] (inv.infoFactura.pagos.map buildPago))) ∧
    (∃ detN, nthChild xml 2 = some detN ∧
      ∀ i d, inv.detalles.get? i = some d →
        ∃ dn, (elemChildren detN).get? i = some dn ∧
          firstChildText "cantidad" dn = some (jsToFixed d.cantidad (precisionOf inv.version)) ∧
          firstChildText "precioUnitario" dn
            = some (jsToFixed d.precioUnitario (precisionOf inv.version)) ∧
          firstChildText "descuento" dn = some (jsToFixed d.descuento 2) ∧
          firstChildText "precioTotalSinImpuesto" dn
            = some (jsToFixed d.precioTotalSinImpuesto 2) ∧
          childElemNamed "impuestos" dn
            = some (.elem "impuestos" [] (d.impuestos.map buildImpuesto))) ∧
    (∀ p : Pago, firstChildText "total" (buildPago p) = some (jsToFixed p.total 2)) ∧
    (∀ t : TotalTax,
      firstChildText "baseImponible" (buildTotalImpuesto t)
        = some (jsToFixed t.baseImponible 2) ∧
      firstChildText "valor" (buildTotalImpuesto t) = some (jsToFixed t.valor 2)) ∧
    (∀ t : Tax,
      firstChildText "baseImponible" (buildImpuesto t) = some (jsToFixed t.baseImponible 2) ∧
      firstChildText "valor" (buildImpuesto t) = some (jsToFixed t.valor 2)) ∧
    (precisionOf inv.version = if versionString inv.version ∈ ["1.1.0", "2.1.0"] then 6 else 2) ∧
    (∀ (x : JSNum) (n : Nat), 0 < n → hasDecimalPlaces (jsToFixed x n) n) ∧
    precisionOf .v2_1_0 = 6 ∧ precisionOf .v1_0_0 = 2 ∧
    jsToFixed (JSNum.dec 15 1) 6 = "1.500000" ∧ jsToFixed (JSNum.dec 15 1) 2 = "1.50" := by
  obtain ⟨hx, -, -⟩ := generateInvoiceXML_ok_shape inv code xml key h
  subst hx
  obtain ⟨hm1, hm2, hm3, hm4⟩ := firstChildText_buildInfoFactura_monetary inv.infoFactura
  obtain ⟨hc1, hc2⟩ := childElemNamed_buildInfoFactura inv.infoFactura
  refine ⟨⟨buildInfoFactura inv.infoFactura, rfl, hm1, hm2, hm3, hm4, hc1, hc2⟩,
    ⟨.elem "detalles" [] (inv.detalles.map (buildDetalle inv.version)), rfl, ?_⟩,
    firstChildText_buildPago_total,
    firstChildText_buildTotalImpuesto,
    firstChildText_buildImpuesto,
    rfl, jsToFixed_decimals, rfl, rfl, by decide, by decide⟩
  intro i d hi
  obtain ⟨hd1, hd2, hd3, hd4⟩ := firstChildText_buildDetalle inv.version d
  refine ⟨buildDetalle inv.version d, ?_, hd1, hd2, hd3, hd4,
    childElemNamed_buildDetalle_impuestos inv.version d⟩
  show (inv.detalles.map (buildDetalle inv.version)).get? i = _
  rw [List.get?_map, hi]
  rfl

/-- C4 witness: the theorem applied to the example invoice (version 2.1.0,
one line item with quantity 1.5), extracting the claim's concrete
serialization examples together with the quantity text of the first line
item. -/
theorem C4_serialization_precision_witness :
    jsToFixed (JSNum.dec 15 1) 6 = "1.500000" ∧ jsToFixed (JSNum.dec 15 1) 2 = "1.50" :=
  ⟨(C4_serialization_precision exInvoice "12345678"
      (buildFactura exInvoice exAccessKey) exAccessKey rfl).2.2.2.2.2.2.2.2.2.1,
   (C4_serialization_precision exInvoice "12345678"
      (buildFactura exInvoice exAccessKey) exAccessKey rfl).2.2.2.2.2.2.2.2.2.2⟩

/-! ## Lemmas and claims for the signing service -/

/-- C8 as amended: with a certificate in the first certificate bag and a
key in the first PKCS#8 shrouded bag, `signXML` hands the engine exactly
one reference to the root's fixed identifier `#comprobante`, a SHA-256
digest, the RSASSA-PKCS1-v1_5 algorithm, the certificate embedded as
base64 of its DER encoding, and the transform list
`["enveloped", "c14n"]` — an enveloped-signature transform followed by a
canonicalization transform (the claim states the opposite order, refuted
by the counterexample); when the engine yields a node, the result is the
input document with exactly that one signature node appended as the last
child of the root, and when the engine yields no node, `signXML` fails
with the signature-construction error. -/
theorem C8_signature_structure (signEngine : SignParams → Option XmlNode) (doc : XmlNode)
    (p12 : P12File) (certArr : List P12CertBag) (keyArr : List P12KeyBag)
    (cert : ForgeCertificate) (key : ForgePrivateKey)
    (hc : p12.certBagArray = some certArr) (hc0 : certArr.head? = some ⟨some cert⟩)
    (hk : p12.shroudedKeyBagArray = some keyArr) (hk0 : keyArr.head? = some ⟨some key⟩) :
    mkSignParams cert key
      = { algName := "RSASSA-PKCS1-v1_5", hash := "SHA-256",
          transforms := ["enveloped", "c14n"], uri := "#comprobante",
          x509 := [base64Encode cert.derBytes], keyPkcs8 := key.pkcs8Der } ∧
    (∀ nm a cs sigN, doc = .elem nm a cs → signEngine (mkSignParams cert key) = some sigN →
      signXML signEngine doc p12 = .ok (.elem nm a (cs ++ [sigN]))) ∧
    (signEngine (mkSignParams cert key) = none →
      signXML signEngine doc p12 = .error msgSignatureNode) := by
  cases certArr with
  | nil => simp at hc0
  | cons cb certRest =>
    cases keyArr with
    | nil => simp at hk0
    | cons kb keyRest =>
      simp only [List.head?_cons, Option.some.injEq] at hc0 hk0
      subst hc0 hk0
      refine ⟨rfl, ?_, ?_⟩
      · intro nm a cs sigN hdoc hs
        subst hdoc
        unfold signXML
        rw [hc, hk]
        simp [hs, appendChildNode]
      · intro hs
        unfold signXML
        rw [hc, hk]
        simp [hs]

/-- C8 counterexample: a signing engine that records the transform list it
receives shows `signXML` requests the enveloped-signature transform first
and the canonicalization transform second — not a canonicalization
transform followed by an enveloped-signature transform as the claim
states. -/
theorem C8_cex :
    signXML cexSignEngine exDoc exP12
      = .ok (.elem "factura" [("id", "comprobante")]
          [.text "x",
           .elem "Signature" [("enveloped", "enveloped"), ("c14n", "c14n")] []]) ∧
    ["enveloped", "c14n"] ≠ ["c14n", "enveloped"] :=
  ⟨rfl, by decide⟩

/-- C8 witness: the amended theorem applied to the concrete container,
document and constant engine. -/
theorem C8_signature_structure_witness :
    signXML constSignEngine exDoc exP12
      = .ok (.elem "factura" [("id", "comprobante")] [.text "x", .text "sig"]) :=
  (C8_signature_structure constSignEngine exDoc exP12 [⟨some exCert⟩] [⟨some exPrivKey⟩]
      exCert exPrivKey rfl rfl rfl rfl).2.1 "factura" [("id", "comprobante")] [.text "x"]
      (.text "sig") rfl rfl

/-- C9 as amended: the legacy `keyBag` fallback is consulted only when the
modern shrouded-PKCS#8 slot returns a non-empty bag list whose first bag
lacks its `key` property.  When the modern slot yields no bag at all
(absent or empty list), `signXML` fails immediately with the
PKCS#8-key-not-found error, without consulting the legacy slot — contrary
to the claim, which expects the fallback to be attempted whenever the
modern slot yields no key.  When the first modern bag lacks a key and the
legacy slot yields one, signing proceeds with the legacy key; the
"neither bag nor fallback" error is raised only when the first modern bag
lacks a key and the legacy slot also yields none. -/
theorem C9_key_fallback (signEngine : SignParams → Option XmlNode) (doc : XmlNode)
    (p12 : P12File) (certArr : List P12CertBag)
    (hc : p12.certBagArray = some certArr) (hne : certArr.length ≠ 0) :
    ((p12.shroudedKeyBagArray = none ∨ p12.shroudedKeyBagArray = some []) →
      signXML signEngine doc p12 = .error msgKeyNotFoundPkcs8) ∧
    (∀ kb keyRest cert k altRest,
      p12.shroudedKeyBagArray = some (kb :: keyRest) → kb.key = none →
      certArr.head?.bind P12CertBag.cert = some cert →
      p12.keyBagArray = some (⟨some k⟩ :: altRest) →
      signXML signEngine doc p12
        = (match signEngine (mkSignParams cert k) with
           | none => .error msgSignatureNode
           | some n => .ok (appendChildNode doc n))) ∧
    (∀ kb keyRest cert,
      p12.shroudedKeyBagArray = some (kb :: keyRest) → kb.key = none →
      certArr.head?.bind P12CertBag.cert = some cert →
      (p12.keyBagArray = none ∨ p12.keyBagArray = some [] ∨
        ∃ altRest, p12.keyBagArray = some (⟨none⟩ :: altRest)) →
      signXML signEngine doc p12 = .error msgKeyExtract) := by
  refine ⟨?_, ?_, ?_⟩
  · rintro (hnone | hempty)
    · unfold signXML
      simp only [hc]
      rw [if_neg hne, hnone]
    · unfold signXML
      simp only [hc]
      rw [if_neg hne, hempty]
      rfl
  · intro kb keyRest cert k altRest hkarr hkb hcert halt
    unfold signXML
    simp only [hc]
    rw [if_neg hne]
    simp [hkarr, hkb, hcert, halt]
  · intro kb keyRest cert hkarr hkb hcert halt
    unfold signXML
    simp only [hc]
    rw [if_neg hne]
    rcases halt with hn | he | ⟨altRest, ha⟩
    · simp [hkarr, hkb, hcert, hn]
    · simp [hkarr, hkb, hcert, he]
    · simp [hkarr, hkb, hcert, ha]

/-- C9 counterexample: a container whose modern shrouded-PKCS#8 slot
yields an empty bag list while the legacy `keyBag` slot holds a usable
key; `signXML` raises the private-key-not-found error anyway, without
attempting the legacy fallback — refuting "attempts the fallback legacy
slot before failing" and "raises the error only if neither slot yields a
key". -/
theorem C9_cex :
    cexP12NoBag.shroudedKeyBagArray = some [] ∧
    cexP12NoBag.keyBagArray = some [⟨some exPrivKey⟩] ∧
    signXML constSignEngine exDoc cexP12NoBag = .error msgKeyNotFoundPkcs8 :=
  ⟨rfl, rfl, rfl⟩

/-- C9 witness: on a container whose first modern bag lacks its key and
whose legacy slot holds one, the fallback key is used and signing
succeeds. -/
theorem C9_key_fallback_witness :
    signXML constSignEngine exDoc exP12Fallback
      = .ok (.elem "factura" [("id", "comprobante")] [.text "x", .text "sig"]) :=
  (C9_key_fallback constSignEngine exDoc exP12Fallback [⟨some exCert⟩] rfl
      (by decide)).2.1 ⟨none⟩ [] exCert exPrivKey [] rfl rfl rfl rfl
